import Mathlib

/-! Verification of the Locket.AI hybrid search, summarization and chat services
(`backend/search_service.py` and `backend/chat_service.py`).

Modelling conventions: Python strings are `List Char`; Python floats are real
numbers with exact arithmetic; `numpy` vector norms use `Real.sqrt` and
scikit-learn's smoothed idf uses `Real.log`; Python's stable `list.sort` is a
stable insertion sort; database-backed collections are explicit lists; the
sentence-transformer model is an abstract function parameter. -/

noncomputable section

/-- Python `str`, modelled as a list of characters. -/
abbrev PyStr := List Char

/-- Python `str.lower()` (per-character lowering). -/
def toLowerStr (s : PyStr) : PyStr := s.map Char.toLower

/-- Python `str.strip()`: remove leading and trailing whitespace. -/
def pyStrip (s : PyStr) : PyStr :=
  ((s.dropWhile Char.isWhitespace).reverse.dropWhile Char.isWhitespace).reverse

/-- Python `str.split()` with no arguments: split on whitespace, dropping empty pieces. -/
def splitWs (s : PyStr) : List PyStr :=
  (s.splitOnP Char.isWhitespace).filter (fun w => w ≠ [])

/-- Leftmost index at which `needle` occurs in `hay`; Python `hay.find(needle)`
returns `-1` where this returns `none`. -/
def findSub (needle : PyStr) : PyStr → Option Nat
  | [] => if needle.isPrefixOf ([] : PyStr) then some 0 else none
  | c :: t =>
    if needle.isPrefixOf (c :: t) then some 0 else (findSub needle t).map (· + 1)

/-- Python `needle in hay` substring test. -/
def containsSub (needle hay : PyStr) : Bool := (findSub needle hay).isSome

/-- Python slice `s[a:b]` for non-negative bounds. -/
def pySlice (s : PyStr) (a b : Nat) : PyStr := (s.drop a).take (b - a)

/-- Python `l[-n:]`: the last `n` elements. -/
def lastN {α : Type} (n : Nat) (l : List α) : List α := l.drop (l.length - n)

/-- Python `sep.join(parts)`. -/
def pyJoin (sep : PyStr) (parts : List PyStr) : PyStr := (parts.intersperse sep).flatten

/-- Python `" ".join(parts)`. -/
def joinSp (parts : List PyStr) : PyStr := pyJoin [' '] parts

/-! ## Vector arithmetic (`numpy`) -/

/-- `np.dot` on float vectors (`numpy` raises on unequal lengths; the model
truncates to the shorter vector). -/
def dotL (v w : List ℝ) : ℝ := (List.zipWith (fun a b => a * b) v w).sum

/-- Sum of squared entries, so that `np.linalg.norm v = Real.sqrt (normSqL v)`. -/
def normSqL (v : List ℝ) : ℝ := dotL v v

/-- `np.linalg.norm`: the Euclidean norm. -/
def normL (v : List ℝ) : ℝ := Real.sqrt (normSqL v)

lemma dotL_nil_left (w : List ℝ) : dotL [] w = 0 := rfl

lemma dotL_nil_right (v : List ℝ) : dotL v [] = 0 := by
  cases v <;> rfl

lemma dotL_cons_cons (a b : ℝ) (v w : List ℝ) :
    dotL (a :: v) (b :: w) = a * b + dotL v w := by
  simp [dotL]

lemma dotL_eq_sum_range (v w : List ℝ) :
    dotL v w = ∑ i ∈ Finset.range (min v.length w.length),
      v.getD i 0 * w.getD i 0 := by
  induction v generalizing w with
  | nil => simp [dotL]
  | cons a v ih =>
    cases w with
    | nil => simp [dotL]
    | cons b w =>
      rw [dotL_cons_cons, ih]
      rw [show min (a :: v).length (b :: w).length = min v.length w.length + 1 by
        simp [Nat.succ_min_succ]]
      rw [Finset.sum_range_succ']
      simp [add_comm]

lemma normSqL_eq_sum_range (v : List ℝ) :
    normSqL v = ∑ i ∈ Finset.range v.length, v.getD i 0 ^ 2 := by
  rw [normSqL, dotL_eq_sum_range]
  simp [sq]

lemma normSqL_nonneg (v : List ℝ) : 0 ≤ normSqL v := by
  rw [normSqL_eq_sum_range]
  exact Finset.sum_nonneg fun i _ => sq_nonneg _

lemma normL_nonneg (v : List ℝ) : 0 ≤ normL v := Real.sqrt_nonneg _

/-- Cauchy–Schwarz for list dot products, upper side. -/
lemma dotL_le_norm_mul_norm (v w : List ℝ) : dotL v w ≤ normL v * normL w := by
  rw [dotL_eq_sum_range]
  calc ∑ i ∈ Finset.range (min v.length w.length), v.getD i 0 * w.getD i 0
      ≤ Real.sqrt (∑ i ∈ Finset.range (min v.length w.length), v.getD i 0 ^ 2) *
        Real.sqrt (∑ i ∈ Finset.range (min v.length w.length), w.getD i 0 ^ 2) :=
        Real.sum_mul_le_sqrt_mul_sqrt _ _ _
    _ ≤ normL v * normL w := by
        unfold normL
        apply mul_le_mul
        · apply Real.sqrt_le_sqrt
          rw [normSqL_eq_sum_range]
          exact Finset.sum_le_sum_of_subset_of_nonneg
            (Finset.range_subset.mpr (min_le_left _ _)) (fun i _ _ => sq_nonneg _)
        · apply Real.sqrt_le_sqrt
          rw [normSqL_eq_sum_range]
          exact Finset.sum_le_sum_of_subset_of_nonneg
            (Finset.range_subset.mpr (min_le_right _ _)) (fun i _ _ => sq_nonneg _)
        · exact Real.sqrt_nonneg _
        · exact Real.sqrt_nonneg _

lemma dotL_neg_left : ∀ v w : List ℝ, dotL (v.map (fun x => -x)) w = -dotL v w
  | [], _ => by simp [dotL]
  | _ :: _, [] => by simp [dotL_nil_right]
  | a :: v, b :: w => by
    simp only [List.map_cons, dotL_cons_cons, dotL_neg_left v w]
    ring

lemma dotL_neg_right : ∀ v w : List ℝ, dotL v (w.map (fun x => -x)) = -dotL v w
  | [], _ => by simp [dotL]
  | _ :: _, [] => by simp [dotL_nil_right]
  | a :: v, b :: w => by
    simp only [List.map_cons, dotL_cons_cons, dotL_neg_right v w]
    ring

lemma normSqL_neg (v : List ℝ) : normSqL (v.map (fun x => -x)) = normSqL v := by
  rw [normSqL, normSqL, dotL_neg_left, dotL_neg_right]
  ring

/-- Cauchy–Schwarz for list dot products, lower side. -/
lemma neg_norm_mul_norm_le_dotL (v w : List ℝ) :
    -(normL v * normL w) ≤ dotL v w := by
  have h := dotL_le_norm_mul_norm (v.map (fun x => -x)) w
  rw [dotL_neg_left] at h
  have hn : normL (v.map (fun x => -x)) = normL v := by
    unfold normL; rw [normSqL_neg]
  rw [hn] at h
  linarith

lemma dotL_nonneg : ∀ v w : List ℝ, (∀ x ∈ v, 0 ≤ x) → (∀ x ∈ w, 0 ≤ x) →
    0 ≤ dotL v w
  | [], _, _, _ => by simp [dotL]
  | _ :: _, [], _, _ => by simp [dotL_nil_right]
  | a :: v, b :: w, hv, hw => by
    rw [dotL_cons_cons]
    have ha : 0 ≤ a := hv a (List.mem_cons_self _ _)
    have hb : 0 ≤ b := hw b (List.mem_cons_self _ _)
    have hrec := dotL_nonneg v w (fun x hx => hv x (List.mem_cons_of_mem _ hx))
      (fun x hx => hw x (List.mem_cons_of_mem _ hx))
    positivity

/-! ## `backend/search_service.py`: the four signal scorers -/

/-- `cosine_similarity_score` from `backend/search_service.py`. -/
def cosine_similarity_score (vec1 vec2 : List ℝ) : ℝ :=
  if vec1 = [] ∨ vec2 = [] then 0
  else
    let norm1 := normL vec1
    let norm2 := normL vec2
    if norm1 = 0 ∨ norm2 = 0 then 0
    else dotL vec1 vec2 / (norm1 * norm2)

lemma cosine_similarity_score_le_one (v w : List ℝ) : cosine_similarity_score v w ≤ 1 := by
  unfold cosine_similarity_score
  split
  · norm_num
  · dsimp only
    split
    · norm_num
    · rename_i hz
      push_neg at hz
      have h1 : 0 < normL v := lt_of_le_of_ne (normL_nonneg v) (Ne.symm hz.1)
      have h2 : 0 < normL w := lt_of_le_of_ne (normL_nonneg w) (Ne.symm hz.2)
      rw [div_le_one (mul_pos h1 h2)]
      exact dotL_le_norm_mul_norm v w

lemma neg_one_le_cosine_similarity_score (v w : List ℝ) :
    -1 ≤ cosine_similarity_score v w := by
  unfold cosine_similarity_score
  split
  · norm_num
  · dsimp only
    split
    · norm_num
    · rename_i hz
      push_neg at hz
      have h1 : 0 < normL v := lt_of_le_of_ne (normL_nonneg v) (Ne.symm hz.1)
      have h2 : 0 < normL w := lt_of_le_of_ne (normL_nonneg w) (Ne.symm hz.2)
      rw [le_div_iff (mul_pos h1 h2), neg_one_mul]
      exact neg_norm_mul_norm_le_dotL v w

lemma cosine_similarity_score_nonneg (v w : List ℝ)
    (hv : ∀ x ∈ v, 0 ≤ x) (hw : ∀ x ∈ w, 0 ≤ x) :
    0 ≤ cosine_similarity_score v w := by
  unfold cosine_similarity_score
  split
  · norm_num
  · dsimp only
    split
    · norm_num
    · rename_i hz
      push_neg at hz
      have h1 : 0 < normL v := lt_of_le_of_ne (normL_nonneg v) (Ne.symm hz.1)
      have h2 : 0 < normL w := lt_of_le_of_ne (normL_nonneg w) (Ne.symm hz.2)
      exact div_nonneg (dotL_nonneg v w hv hw) (le_of_lt (mul_pos h1 h2))

/-- `fuzzy_match_score` from `backend/search_service.py`. -/
def fuzzy_match_score (query text : PyStr) : ℝ :=
  if query = [] ∨ text = [] then 0
  else
    let queryLower := toLowerStr query
    let textLower := toLowerStr text
    if containsSub queryLower textLower then 1
    else
      let queryWords := (splitWs queryLower).toFinset
      let textWords := (splitWs textLower).toFinset
      if queryWords = ∅ then 0
      else ((queryWords ∩ textWords).card : ℝ) / (queryWords.card : ℝ)

lemma fuzzy_match_score_nonneg (q t : PyStr) : 0 ≤ fuzzy_match_score q t := by
  unfold fuzzy_match_score
  split
  · norm_num
  · dsimp only
    split
    · norm_num
    · split
      · norm_num
      · positivity

lemma fuzzy_match_score_le_one (q t : PyStr) : fuzzy_match_score q t ≤ 1 := by
  unfold fuzzy_match_score
  split
  · norm_num
  · dsimp only
    split
    · norm_num
    · split
      · norm_num
      · rename_i hne
        have hpos : 0 < ((splitWs (toLowerStr q)).toFinset.card : ℝ) := by
          have : (splitWs (toLowerStr q)).toFinset.Nonempty :=
            Finset.nonempty_iff_ne_empty.mpr hne
          exact_mod_cast Finset.card_pos.mpr this
        rw [div_le_one hpos]
        exact_mod_cast Finset.card_le_card (Finset.inter_subset_left)

/-- The extension alternatives of `re.sub(r'\.(pdf|docx?|txt|xlsx?|pptx?)$', '', s)`,
longest variants first so that suffix matching agrees with the regex. -/
def docExts : List PyStr :=
  [".pdf".toList, ".docx".toList, ".doc".toList, ".txt".toList,
   ".xlsx".toList, ".xls".toList, ".pptx".toList, ".ppt".toList]

/-- Remove a trailing document extension (first regex in `filename_match_score`). -/
def stripDocExt (s : PyStr) : PyStr :=
  match docExts.find? (fun e => e.isSuffixOf s) with
  | some e => s.take (s.length - e.length)
  | none => s

def isSepChar (c : Char) : Bool := c == '_' || c == '-' || c.isWhitespace

/-- `re.sub(r'^\d+[_\-\s]*', '', s)`: strip a leading digit run and following separators. -/
def stripLeadingDigits (s : PyStr) : PyStr :=
  match s with
  | [] => []
  | c :: _ => if c.isDigit then (s.dropWhile Char.isDigit).dropWhile isSepChar else s

/-- `re.sub(r'[_\-]', ' ', s)`. -/
def sepsToSpaces (s : PyStr) : PyStr :=
  s.map (fun c => if c = '_' ∨ c = '-' then ' ' else c)

/-- The stop-word set hard-coded in `filename_match_score`. -/
def filenameStopWords : List PyStr :=
  ["the", "a", "an", "and", "or", "but", "is", "are", "was", "were", "of", "to",
   "in", "for", "on", "what", "when", "where", "who", "how", "why"].map
    (fun s => s.toList)

/-- Meaningful words: drop stop words and words of length ≤ 2 (`filename_match_score`). -/
def meaningfulWords (s : PyStr) : Finset PyStr :=
  ((splitWs s).filter (fun w => w ∉ filenameStopWords ∧ 2 < w.length)).toFinset

/-- `filename_match_score` from `backend/search_service.py`. -/
def filename_match_score (query filename : PyStr) : ℝ :=
  if query = [] ∨ filename = [] then 0
  else
    let queryLower := toLowerStr query
    let filenameClean := sepsToSpaces (stripLeadingDigits (stripDocExt (toLowerStr filename)))
    if queryLower = filenameClean then 1
    else if containsSub queryLower filenameClean ∨ containsSub filenameClean queryLower then 0.9
    else
      let queryWords := meaningfulWords queryLower
      let filenameWords := meaningfulWords filenameClean
      if queryWords = ∅ then 0
      else
        let overlap := (queryWords ∩ filenameWords).card
        if 0 < overlap then
          min 1 ((overlap : ℝ) / (queryWords.card : ℝ) * 1.3)
        else 0

lemma filename_match_score_nonneg (q f : PyStr) : 0 ≤ filename_match_score q f := by
  unfold filename_match_score
  split
  · norm_num
  · dsimp only
    split
    · norm_num
    · split
      · norm_num
      · split
        · norm_num
        · split
          · apply le_min
            · norm_num
            · positivity
          · norm_num

lemma filename_match_score_le_one (q f : PyStr) : filename_match_score q f ≤ 1 := by
  unfold filename_match_score
  split
  · norm_num
  · dsimp only
    split
    · norm_num
    · split
      · norm_num
      · split
        · norm_num
        · split
          · exact min_le_left _ _
          · norm_num

/-! ## Keyword scorer: two-document TF-IDF cosine
(`keyword_match_score` calls `sklearn.TfidfVectorizer(lowercase=True,
stop_words='english')` and `sklearn cosine_similarity`; that library behaviour
is modelled here). -/

def isWordChar (c : Char) : Bool := c.isAlphanum || c == '_'

/-- scikit-learn's default token pattern `\b\w\w+\b` after lowercasing:
maximal word-character runs of length at least 2. -/
def sklearnTokenize (s : PyStr) : List PyStr :=
  ((toLowerStr s).splitOnP (fun c => !isWordChar c)).filter (fun w => 2 ≤ w.length)

/-- Modelled from scikit-learn's built-in `english` stop-word list
(`TfidfVectorizer(stop_words='english')`). -/
def sklearnStopWords : List PyStr :=
  ["a", "about", "above", "across", "after", "afterwards", "again", "against",
   "all", "almost", "alone", "along", "already", "also", "although", "always",
   "am", "among", "amongst", "amoungst", "amount", "an", "and", "another",
   "any", "anyhow", "anyone", "anything", "anyway", "anywhere", "are",
   "around", "as", "at", "back", "be", "became", "because", "become",
   "becomes", "becoming", "been", "before", "beforehand", "behind", "being",
   "below", "beside", "besides", "between", "beyond", "bill", "both",
   "bottom", "but", "by", "call", "can", "cannot", "cant", "co", "con",
   "could", "couldnt", "cry", "de", "describe", "detail", "do", "done",
   "down", "due", "during", "each", "eg", "eight", "either", "eleven",
   "else", "elsewhere", "empty", "enough", "etc", "even", "ever", "every",
   "everyone", "everything", "everywhere", "except", "few", "fifteen",
   "fifty", "fill", "find", "fire", "first", "five", "for", "former",
   "formerly", "forty", "found", "four", "from", "front", "full", "further",
   "get", "give", "go", "had", "has", "hasnt", "have", "he", "hence", "her",
   "here", "hereafter", "hereby", "herein", "hereupon", "hers", "herself",
   "him", "himself", "his", "how", "however", "hundred", "i", "ie", "if",
   "in", "inc", "indeed", "interest", "into", "is", "it", "its", "itself",
   "keep", "last", "latter", "latterly", "least", "less", "ltd", "made",
   "many", "may", "me", "meanwhile", "might", "mill", "mine", "more",
   "moreover", "most", "mostly", "move", "much", "must", "my", "myself",
   "name", "namely", "neither", "never", "nevertheless", "next", "nine",
   "no", "nobody", "none", "noone", "nor", "not", "nothing", "now",
   "nowhere", "of", "off", "often", "on", "once", "one", "only", "onto",
   "or", "other", "others", "otherwise", "our", "ours", "ourselves", "out",
   "over", "own", "part", "per", "perhaps", "please", "put", "rather", "re",
   "same", "see", "seem", "seemed", "seeming", "seems", "serious", "several",
   "she", "should", "show", "side", "since", "sincere", "six", "sixty", "so",
   "some", "somehow", "someone", "something", "sometime", "sometimes",
   "somewhere", "still", "such", "system", "take", "ten", "than", "that",
   "the", "their", "them", "themselves", "then", "thence", "there",
   "thereafter", "thereby", "therefore", "therein", "thereupon", "these",
   "they", "thick", "thin", "third", "this", "those", "though", "three",
   "through", "throughout", "thru", "thus", "to", "together", "too", "top",
   "toward", "towards", "twelve", "twenty", "two", "un", "under", "until",
   "up", "upon", "us", "very", "via", "was", "we", "well", "were", "what",
   "whatever", "when", "whence", "whenever", "where", "whereafter",
   "whereas", "whereby", "wherein", "whereupon", "wherever", "whether",
   "which", "while", "whither", "who", "whoever", "whole", "whom", "whose",
   "why", "will", "with", "within", "without", "would", "yet", "you",
   "your", "yours", "yourself", "yourselves"].map (fun s => s.toList)

/-- Tokens of a document after stop-word removal. -/
def sklearnTerms (s : PyStr) : List PyStr :=
  (sklearnTokenize s).filter (fun w => w ∉ sklearnStopWords)

/-- Smoothed inverse document frequency `ln((1+n)/(1+df)) + 1` with `n = 2` documents. -/
def smoothIdf (df : ℕ) : ℝ := Real.log (3 / (1 + (df : ℝ))) + 1

/-- scikit-learn row l2-normalization (zero rows are left unchanged). -/
def l2Normalize (v : List ℝ) : List ℝ :=
  if normL v = 0 then v else v.map (fun x => x / normL v)

/-- The (un-normalized) TF-IDF row of the document with tokens `own`, the other
document having tokens `other`, over the joint `vocabulary`. -/
def tfidfRawRow (own other : List PyStr) (vocabulary : List PyStr) : List ℝ :=
  vocabulary.map (fun t =>
    ((own.count t : ℕ) : ℝ) *
      smoothIdf ((if t ∈ own then 1 else 0) + (if t ∈ other then 1 else 0)))

/-- `keyword_match_score` from `backend/search_service.py`: cosine similarity of
the two TF-IDF rows; the bare `except` catches the vectorizer's empty-vocabulary
error, yielding 0. -/
def keyword_match_score (query text : PyStr) : ℝ :=
  if query = [] ∨ text = [] then 0
  else
    let tok1 := sklearnTerms (toLowerStr query)
    let tok2 := sklearnTerms (toLowerStr text)
    let vocabulary := (tok1 ++ tok2).dedup
    if vocabulary = [] then 0
    else
      cosine_similarity_score (l2Normalize (tfidfRawRow tok1 tok2 vocabulary))
        (l2Normalize (tfidfRawRow tok2 tok1 vocabulary))

lemma smoothIdf_nonneg (df : ℕ) (h : df ≤ 2) : 0 ≤ smoothIdf df := by
  unfold smoothIdf
  have hlog : 0 ≤ Real.log (3 / (1 + (df : ℝ))) := by
    apply Real.log_nonneg
    rw [le_div_iff (by positivity)]
    have : (df : ℝ) ≤ 2 := by exact_mod_cast h
    linarith
  linarith

lemma tfidfRawRow_nonneg (own other vocabulary : List PyStr) :
    ∀ x ∈ tfidfRawRow own other vocabulary, 0 ≤ x := by
  intro x hx
  rw [tfidfRawRow, List.mem_map] at hx
  obtain ⟨t, _, rfl⟩ := hx
  apply mul_nonneg (by positivity)
  apply smoothIdf_nonneg
  split <;> split <;> norm_num

lemma l2Normalize_nonneg (v : List ℝ) (hv : ∀ x ∈ v, 0 ≤ x) :
    ∀ x ∈ l2Normalize v, 0 ≤ x := by
  intro x hx
  rw [l2Normalize] at hx
  split at hx
  · exact hv x hx
  · rw [List.mem_map] at hx
    obtain ⟨y, hy, rfl⟩ := hx
    exact div_nonneg (hv y hy) (normL_nonneg v)

lemma keyword_match_score_nonneg (q t : PyStr) : 0 ≤ keyword_match_score q t := by
  unfold keyword_match_score
  split
  · norm_num
  · dsimp only
    split
    · norm_num
    · apply cosine_similarity_score_nonneg
      · exact l2Normalize_nonneg _ (tfidfRawRow_nonneg _ _ _)
      · exact l2Normalize_nonneg _ (tfidfRawRow_nonneg _ _ _)

lemma keyword_match_score_le_one (q t : PyStr) : keyword_match_score q t ≤ 1 := by
  unfold keyword_match_score
  split
  · norm_num
  · dsimp only
    split
    · norm_num
    · exact cosine_similarity_score_le_one _ _

/-! ## Rounding and the hybrid aggregator -/

/-- Round half to even to an integer, modelling Python's `round`. -/
def roundHalfEven (x : ℝ) : ℤ :=
  if x - ⌊x⌋ < 1 / 2 then ⌊x⌋
  else if 1 / 2 < x - ⌊x⌋ then ⌊x⌋ + 1
  else if ⌊x⌋ % 2 = 0 then ⌊x⌋ else ⌊x⌋ + 1

/-- Python `round(x, 4)`, modelled as exact decimal rounding of the real value. -/
def round4 (x : ℝ) : ℝ := ((roundHalfEven (x * 10000) : ℤ) : ℝ) / 10000

lemma abs_roundHalfEven_sub_le (x : ℝ) : |((roundHalfEven x : ℤ) : ℝ) - x| ≤ 1 / 2 := by
  have h0 : (⌊x⌋ : ℝ) ≤ x := Int.floor_le x
  have h1 : x < (⌊x⌋ : ℝ) + 1 := Int.lt_floor_add_one x
  unfold roundHalfEven
  split
  · rw [abs_le]; constructor <;> linarith
  · rename_i hlt
    push_neg at hlt
    split
    · push_cast
      rw [abs_le]
      constructor <;> linarith
    · split <;> push_cast <;> rw [abs_le] <;> constructor <;> linarith

lemma roundHalfEven_le_of_le (x : ℝ) (n : ℤ) (h : x ≤ (n : ℝ)) : roundHalfEven x ≤ n := by
  have hfl : ⌊x⌋ ≤ n := by
    have := Int.floor_mono h
    simpa using this
  have h0 : (⌊x⌋ : ℝ) ≤ x := Int.floor_le x
  unfold roundHalfEven
  split
  · exact hfl
  · rename_i hlt
    push_neg at hlt
    have hne : ⌊x⌋ ≠ n := by
      intro heq
      have : x = (n : ℝ) := le_antisymm h (by rw [← heq]; exact h0)
      rw [this, ← heq] at hlt
      simp at hlt
      linarith
    have hstep : ⌊x⌋ + 1 ≤ n := by omega
    split
    · exact hstep
    · split
      · exact hfl
      · exact hstep

lemma le_roundHalfEven_of_le (x : ℝ) (n : ℤ) (h : (n : ℝ) ≤ x) : n ≤ roundHalfEven x := by
  have hfl : n ≤ ⌊x⌋ := Int.le_floor.mpr h
  unfold roundHalfEven
  split
  · exact hfl
  · split
    · omega
    · split
      · exact hfl
      · omega

lemma abs_round4_sub_le (x : ℝ) : |round4 x - x| ≤ 1 / 20000 := by
  unfold round4
  have h := abs_roundHalfEven_sub_le (x * 10000)
  rw [show ((roundHalfEven (x * 10000) : ℤ) : ℝ) / 10000 - x =
      (((roundHalfEven (x * 10000) : ℤ) : ℝ) - x * 10000) / 10000 by ring]
  rw [abs_div]
  rw [show |(10000 : ℝ)| = 10000 by norm_num]
  rw [div_le_iff (by norm_num)]
  calc |((roundHalfEven (x * 10000) : ℤ) : ℝ) - x * 10000| ≤ 1 / 2 := h
    _ = 1 / 20000 * 10000 := by norm_num

lemma round4_le_of_le (x c : ℝ) (n : ℤ) (hc : c = (n : ℝ) / 10000) (h : x ≤ c) :
    round4 x ≤ c := by
  unfold round4
  rw [hc]
  have : roundHalfEven (x * 10000) ≤ n := by
    apply roundHalfEven_le_of_le
    rw [hc] at h
    calc x * 10000 ≤ (n : ℝ) / 10000 * 10000 := by nlinarith
      _ = (n : ℝ) := by ring
  apply div_le_div_of_nonneg_right _ (by norm_num : (0:ℝ) ≤ 10000)
  exact_mod_cast this

lemma le_round4_of_le (x c : ℝ) (n : ℤ) (hc : c = (n : ℝ) / 10000) (h : c ≤ x) :
    c ≤ round4 x := by
  unfold round4
  rw [hc]
  have : n ≤ roundHalfEven (x * 10000) := by
    apply le_roundHalfEven_of_le
    rw [hc] at h
    calc (n : ℝ) = (n : ℝ) / 10000 * 10000 := by ring
      _ ≤ x * 10000 := by nlinarith
  apply div_le_div_of_nonneg_right _ (by norm_num : (0:ℝ) ≤ 10000)
  exact_mod_cast this

/-- The score dictionary returned by `calculate_hybrid_score`. -/
structure ScoreBreakdown where
  semantic : ℝ
  keyword : ℝ
  fuzzy : ℝ
  filename : ℝ
  total : ℝ

/-- `calculate_hybrid_score` from `backend/search_service.py` (the `doc_content
or ""` guard only replaces `None`, which the model has no need of). -/
def calculate_hybrid_score (query_embedding doc_embedding : List ℝ)
    (query doc_content doc_filename : PyStr) : ScoreBreakdown :=
  let semantic_score := cosine_similarity_score query_embedding doc_embedding
  let keyword_score := keyword_match_score query doc_content
  let fuzzy_score := fuzzy_match_score query doc_content
  let filename_score := filename_match_score query doc_filename
  let total_score :=
    semantic_score * 0.40 + filename_score * 0.30 + keyword_score * 0.20 +
      fuzzy_score * 0.10
  { semantic := round4 semantic_score
    keyword := round4 keyword_score
    fuzzy := round4 fuzzy_score
    filename := round4 filename_score
    total := round4 total_score }

lemma calculate_hybrid_score_def (qe de : List ℝ) (q c f : PyStr) :
    calculate_hybrid_score qe de q c f =
      { semantic := round4 (cosine_similarity_score qe de)
        keyword := round4 (keyword_match_score q c)
        fuzzy := round4 (fuzzy_match_score q c)
        filename := round4 (filename_match_score q f)
        total := round4 (cosine_similarity_score qe de * 0.40 +
          filename_match_score q f * 0.30 + keyword_match_score q c * 0.20 +
          fuzzy_match_score q c * 0.10) } := rfl

lemma round4_fixed (n : ℤ) : round4 ((n : ℝ) / 10000) = (n : ℝ) / 10000 := by
  unfold round4 roundHalfEven
  rw [show ((n : ℝ) / 10000) * 10000 = (n : ℝ) by ring, Int.floor_intCast]
  rw [if_pos (by norm_num)]

lemma round4_mem_of_mem (x lo hi : ℝ) (nlo nhi : ℤ) (hlo : lo = (nlo : ℝ) / 10000)
    (hhi : hi = (nhi : ℝ) / 10000) (h1 : lo ≤ x) (h2 : x ≤ hi) :
    lo ≤ round4 x ∧ round4 x ≤ hi :=
  ⟨le_round4_of_le x lo nlo hlo h1, round4_le_of_le x hi nhi hhi h2⟩

/-- C1 counterexample: the semantic score is the raw cosine similarity, which is
`-1` on the vector pair `[1]`, `[-1]`; with an otherwise non-matching document the
total score is `-0.4`.  So neither the semantic nor the total component lies in
`[0,1]`. -/
theorem C1_counterexample :
    cosine_similarity_score [(1 : ℝ)] [(-1 : ℝ)] = -1 ∧
    cosine_similarity_score [(1 : ℝ)] [(-1 : ℝ)] < 0 ∧
    (calculate_hybrid_score [(1 : ℝ)] [(-1 : ℝ)] ['q'] [] []).total = -(2 / 5) ∧
    (calculate_hybrid_score [(1 : ℝ)] [(-1 : ℝ)] ['q'] [] []).total < 0 := by
  have h1 : normL [(1 : ℝ)] = 1 := by
    unfold normL normSqL
    norm_num [dotL, Real.sqrt_one]
  have h2 : normL [(-1 : ℝ)] = 1 := by
    unfold normL normSqL
    rw [show dotL [(-1 : ℝ)] [(-1 : ℝ)] = 1 by norm_num [dotL]]
    exact Real.sqrt_one
  have hcos : cosine_similarity_score [(1 : ℝ)] [(-1 : ℝ)] = -1 := by
    rw [cosine_similarity_score]
    rw [if_neg (by simp)]
    dsimp only
    rw [h1, h2]
    rw [if_neg (by norm_num)]
    norm_num [dotL]
  have hkw : keyword_match_score ['q'] [] = 0 := by
    rw [keyword_match_score, if_pos (Or.inr rfl)]
  have hfz : fuzzy_match_score ['q'] [] = 0 := by
    rw [fuzzy_match_score, if_pos (Or.inr rfl)]
  have hfn : filename_match_score ['q'] [] = 0 := by
    rw [filename_match_score, if_pos (Or.inr rfl)]
  have htot : (calculate_hybrid_score [(1 : ℝ)] [(-1 : ℝ)] ['q'] [] []).total = -(2 / 5) := by
    rw [calculate_hybrid_score_def]
    dsimp only
    rw [hcos, hkw, hfz, hfn]
    rw [show (-1 : ℝ) * 0.40 + 0 * 0.30 + 0 * 0.20 + 0 * 0.10 =
      ((-4000 : ℤ) : ℝ) / 10000 by norm_num]
    rw [round4_fixed]
    norm_num
  refine ⟨hcos, by rw [hcos]; norm_num, htot, by rw [htot]; norm_num⟩

/-- C1 (amended): for every query, document content, filename and pair of
embedding vectors, the keyword, fuzzy and filename components of the hybrid
score lie in `[0,1]`; the semantic component (the cosine similarity) lies in
`[-1,1]`, and the total lies in `[-2/5, 1]`.  Likewise the raw cosine
similarity of any two vectors lies in `[-1,1]` (not `[0,1]`). -/
theorem C1_amended_component_bounds (qe de : List ℝ) (q c f : PyStr) :
    (0 ≤ (calculate_hybrid_score qe de q c f).keyword ∧
      (calculate_hybrid_score qe de q c f).keyword ≤ 1) ∧
    (0 ≤ (calculate_hybrid_score qe de q c f).fuzzy ∧
      (calculate_hybrid_score qe de q c f).fuzzy ≤ 1) ∧
    (0 ≤ (calculate_hybrid_score qe de q c f).filename ∧
      (calculate_hybrid_score qe de q c f).filename ≤ 1) ∧
    (-1 ≤ (calculate_hybrid_score qe de q c f).semantic ∧
      (calculate_hybrid_score qe de q c f).semantic ≤ 1) ∧
    (-(2 / 5) ≤ (calculate_hybrid_score qe de q c f).total ∧
      (calculate_hybrid_score qe de q c f).total ≤ 1) ∧
    (∀ v w : List ℝ, -1 ≤ cosine_similarity_score v w ∧
      cosine_similarity_score v w ≤ 1) := by
  rw [calculate_hybrid_score_def]
  dsimp only
  refine ⟨?_, ?_, ?_, ?_, ?_, fun v w =>
    ⟨neg_one_le_cosine_similarity_score v w, cosine_similarity_score_le_one v w⟩⟩
  · exact round4_mem_of_mem _ _ _ 0 10000 (by norm_num) (by norm_num)
      (keyword_match_score_nonneg q c) (keyword_match_score_le_one q c)
  · exact round4_mem_of_mem _ _ _ 0 10000 (by norm_num) (by norm_num)
      (fuzzy_match_score_nonneg q c) (fuzzy_match_score_le_one q c)
  · exact round4_mem_of_mem _ _ _ 0 10000 (by norm_num) (by norm_num)
      (filename_match_score_nonneg q f) (filename_match_score_le_one q f)
  · exact round4_mem_of_mem _ _ _ (-10000) 10000 (by norm_num) (by norm_num)
      (neg_one_le_cosine_similarity_score qe de) (cosine_similarity_score_le_one qe de)
  · apply round4_mem_of_mem _ _ _ (-4000) 10000 (by norm_num) (by norm_num)
    · nlinarith [neg_one_le_cosine_similarity_score qe de,
        keyword_match_score_nonneg q c, fuzzy_match_score_nonneg q c,
        filename_match_score_nonneg q f]
    · nlinarith [cosine_similarity_score_le_one qe de,
        keyword_match_score_le_one q c, fuzzy_match_score_le_one q c,
        filename_match_score_le_one q f]

/-- C3: the total in the returned breakdown equals
`0.40·semantic + 0.30·filename + 0.20·keyword + 0.10·fuzzy` of the component
scores reported in the same breakdown, up to the 4-decimal rounding applied to
each reported value (tolerance `1/10000`, one unit in the last reported
decimal place). -/
theorem C3_total_weighted_sum (qe de : List ℝ) (q c f : PyStr) :
    |(calculate_hybrid_score qe de q c f).total -
      (0.40 * (calculate_hybrid_score qe de q c f).semantic +
       0.30 * (calculate_hybrid_score qe de q c f).filename +
       0.20 * (calculate_hybrid_score qe de q c f).keyword +
       0.10 * (calculate_hybrid_score qe de q c f).fuzzy)| ≤ 1 / 10000 := by
  rw [calculate_hybrid_score_def]
  dsimp only
  obtain ⟨hT1, hT2⟩ := abs_le.mp (abs_round4_sub_le
    (cosine_similarity_score qe de * 0.40 + filename_match_score q f * 0.30 +
      keyword_match_score q c * 0.20 + fuzzy_match_score q c * 0.10))
  obtain ⟨hs1, hs2⟩ := abs_le.mp (abs_round4_sub_le (cosine_similarity_score qe de))
  obtain ⟨hf1, hf2⟩ := abs_le.mp (abs_round4_sub_le (filename_match_score q f))
  obtain ⟨hk1, hk2⟩ := abs_le.mp (abs_round4_sub_le (keyword_match_score q c))
  obtain ⟨hz1, hz2⟩ := abs_le.mp (abs_round4_sub_le (fuzzy_match_score q c))
  rw [abs_le]
  constructor <;> linarith

/-! ## Snippet extraction -/

/-- `extract_relevant_snippet` from `backend/search_service.py`. -/
def extract_relevant_snippet (query content : PyStr) (max_length : ℕ) : PyStr :=
  if content = [] then []
  else
    let queryLower := toLowerStr query
    let contentLower := toLowerStr content
    match findSub queryLower contentLower with
    | some idx =>
      let start := idx - 50
      let stop := min content.length (idx + query.length + 150)
      let snippet := pySlice content start stop
      let snippet2 := if 0 < start then "...".toList ++ snippet else snippet
      if stop < content.length then snippet2 ++ "...".toList else snippet2
    | none =>
      let snippet := content.take max_length
      if max_length < content.length then snippet ++ "...".toList else snippet

lemma findSub_bound (n : PyStr) : ∀ h : PyStr, ∀ i, findSub n h = some i →
    i + n.length ≤ h.length
  | [], i => by
    intro hi
    unfold findSub at hi
    split at hi
    · rename_i hp
      have : n = [] := by
        cases n with
        | nil => rfl
        | cons a t => simp [List.isPrefixOf] at hp
      cases hi
      simp [this]
    · cases hi
  | c :: t, i => by
    intro hi
    unfold findSub at hi
    split at hi
    · rename_i hp
      cases hi
      have : n <+: (c :: t) := List.isPrefixOf_iff_prefix.mp hp
      simpa using this.length_le
    · rw [Option.map_eq_some'] at hi
      obtain ⟨j, hj, rfl⟩ := hi
      have := findSub_bound n t j hj
      simp only [List.length_cons]
      omega

lemma findSub_nil_left (h : PyStr) : findSub [] h = some 0 := by
  cases h <;> simp [findSub, List.isPrefixOf]

lemma length_pySlice (s : PyStr) (a b : ℕ) :
    (pySlice s a b).length = min (b - a) (s.length - a) := by
  simp [pySlice]

set_option maxRecDepth 20000 in
/-- C4 counterexample: with query `"a"`, a 160-character content starting with
`'a'` and `max_length = 10`, the snippet has 154 characters, far above
`max_length + 2·len("...") = 16`: the context window uses the constants 50/150
and ignores `max_length` whenever the query is found. -/
theorem C4_counterexample :
    (extract_relevant_snippet ['a'] (List.replicate 160 'a') 10).length = 154 ∧
    10 + 2 * 3 < 154 := by
  constructor
  · decide
  · norm_num

/-- C4 (amended): empty content yields the empty snippet and non-empty content a
non-empty snippet; when the lowercased query is **not** found in the lowercased
content the snippet length is at most `max_length + len("...")`; when it is
found the length is at most `len(query) + 200 + 2·len("...")`, independently of
`max_length`. -/
theorem C4_amended_snippet_bounds (query content : PyStr) (max_length : ℕ) :
    (content = [] → extract_relevant_snippet query content max_length = []) ∧
    (content ≠ [] → extract_relevant_snippet query content max_length ≠ []) ∧
    (findSub (toLowerStr query) (toLowerStr content) = none →
      (extract_relevant_snippet query content max_length).length ≤ max_length + 3) ∧
    (∀ idx, findSub (toLowerStr query) (toLowerStr content) = some idx →
      (extract_relevant_snippet query content max_length).length ≤
        query.length + 200 + 2 * 3) := by
  refine ⟨?_, ?_, ?_, ?_⟩
  · intro h
    rw [extract_relevant_snippet, if_pos h]
  · intro h
    rw [extract_relevant_snippet, if_neg h]
    dsimp only
    rcases hf : findSub (toLowerStr query) (toLowerStr content) with _ | idx <;>
      dsimp only
    · -- not found: first max_length characters, possibly with a suffix
      split
      · simp
      · rename_i hlen
        push_neg at hlen
        rw [List.take_of_length_le hlen]
        exact h
    · -- found: the context window is non-empty
      have hb := findSub_bound (toLowerStr query) (toLowerStr content) idx hf
      simp only [toLowerStr, List.length_map] at hb
      have hidxlt : idx < content.length := by
        rcases query with _ | ⟨c, q⟩
        · rw [show toLowerStr [] = [] from rfl, findSub_nil_left] at hf
          injection hf with h0
          subst h0
          exact List.length_pos.mpr h
        · simp only [List.length_cons] at hb
          omega
      have hslice : pySlice content (idx - 50)
          (min content.length (idx + query.length + 150)) ≠ [] := by
        rw [← List.length_pos, length_pySlice]
        omega
      split
      · split <;> simp [hslice]
      · split
        · simp
        · exact hslice
  · intro hf
    rw [extract_relevant_snippet]
    split
    · simp
    · dsimp only
      rw [hf]
      dsimp only
      split
      · simp only [List.length_append, List.length_take]
        have h3 : ("...".toList : PyStr).length = 3 := by decide
        omega
      · simp only [List.length_take]
        omega
  · intro idx hf
    rw [extract_relevant_snippet]
    split
    · simp
    · dsimp only
      rw [hf]
      dsimp only
      have hds : (pySlice content (idx - 50)
          (min content.length (idx + query.length + 150))).length ≤
          query.length + 200 := by
        rw [length_pySlice]
        omega
      have h3 : ("...".toList : PyStr).length = 3 := by decide
      split <;> split <;> (try simp only [List.length_append, h3]) <;> omega

/-! ## Stable sorting (Python's `list.sort` is stable; `sort(key=…, reverse=True)`
keeps the original order of elements with equal keys) -/

/-- Stable descending insertion: `x` goes before the first element whose key is
not above `key x`; elements processed earlier keep their place among equals. -/
def insertDesc {α β : Type} [LinearOrder β] (key : α → β) (x : α) : List α → List α
  | [] => [x]
  | y :: ys => if key y ≤ key x then x :: y :: ys else y :: insertDesc key x ys

/-- Stable sort, descending by `key`: models `l.sort(key=key, reverse=True)`. -/
def sortDesc {α β : Type} [LinearOrder β] (key : α → β) (l : List α) : List α :=
  l.foldr (insertDesc key) []

lemma mem_insertDesc {α β : Type} [LinearOrder β] (key : α → β) (x : α) :
    ∀ l : List α, ∀ z ∈ insertDesc key x l, z = x ∨ z ∈ l
  | [], z, hz => by
    simp [insertDesc] at hz
    exact Or.inl hz
  | y :: ys, z, hz => by
    rw [insertDesc] at hz
    split at hz
    · rcases List.mem_cons.mp hz with rfl | hz
      · exact Or.inl rfl
      · exact Or.inr hz
    · rcases List.mem_cons.mp hz with rfl | hz
      · exact Or.inr (List.mem_cons_self _ _)
      · rcases mem_insertDesc key x ys z hz with h | h
        · exact Or.inl h
        · exact Or.inr (List.mem_cons_of_mem _ h)

lemma mem_sortDesc {α β : Type} [LinearOrder β] (key : α → β) :
    ∀ l : List α, ∀ z ∈ sortDesc key l, z ∈ l
  | [], z, hz => hz
  | x :: xs, z, hz => by
    rw [sortDesc, List.foldr_cons] at hz
    rcases mem_insertDesc key x _ z hz with rfl | h
    · exact List.mem_cons_self _ _
    · exact List.mem_cons_of_mem _ (mem_sortDesc key xs z h)

lemma insertDesc_sorted {α β : Type} [LinearOrder β] (key : α → β) (x : α) :
    ∀ l : List α, l.Pairwise (fun a b => key b ≤ key a) →
      (insertDesc key x l).Pairwise (fun a b => key b ≤ key a)
  | [], _ => List.pairwise_singleton _ _
  | y :: ys, hl => by
    rw [insertDesc]
    rw [List.pairwise_cons] at hl
    split
    · rename_i hxy
      rw [List.pairwise_cons]
      refine ⟨?_, List.pairwise_cons.mpr hl⟩
      intro z hz
      rcases List.mem_cons.mp hz with rfl | hz
      · exact hxy
      · exact le_trans (hl.1 z hz) hxy
    · rename_i hxy
      push_neg at hxy
      rw [List.pairwise_cons]
      constructor
      · intro z hz
        rcases mem_insertDesc key x ys z hz with rfl | hz
        · exact le_of_lt hxy
        · exact hl.1 z hz
      · exact insertDesc_sorted key x ys hl.2

lemma sortDesc_sorted {α β : Type} [LinearOrder β] (key : α → β) :
    ∀ l : List α, (sortDesc key l).Pairwise (fun a b => key b ≤ key a)
  | [] => List.Pairwise.nil
  | x :: xs => by
    rw [sortDesc, List.foldr_cons]
    exact insertDesc_sorted key x _ (sortDesc_sorted key xs)

lemma insertDesc_stable {α β : Type} [LinearOrder β] (key : α → β) (idx : α → ℕ) (x : α) :
    ∀ l : List α, (∀ y ∈ l, idx x < idx y) →
      l.Pairwise (fun a b => key b < key a ∨ idx a < idx b) →
      (insertDesc key x l).Pairwise (fun a b => key b < key a ∨ idx a < idx b)
  | [], _, _ => List.pairwise_singleton _ _
  | y :: ys, hx, hl => by
    rw [insertDesc]
    rw [List.pairwise_cons] at hl
    split
    · rw [List.pairwise_cons]
      exact ⟨fun z hz => Or.inr (hx z hz), List.pairwise_cons.mpr hl⟩
    · rename_i hxy
      push_neg at hxy
      rw [List.pairwise_cons]
      constructor
      · intro z hz
        rcases mem_insertDesc key x ys z hz with rfl | hz
        · exact Or.inl hxy
        · exact hl.1 z hz
      · exact insertDesc_stable key idx x ys
          (fun z hz => hx z (List.mem_cons_of_mem _ hz)) hl.2

lemma sortDesc_stable {α β : Type} [LinearOrder β] (key : α → β) (idx : α → ℕ) :
    ∀ l : List α, l.Pairwise (fun a b => idx a < idx b) →
      (sortDesc key l).Pairwise (fun a b => key b < key a ∨ idx a < idx b)
  | [], _ => List.Pairwise.nil
  | x :: xs, hl => by
    rw [sortDesc, List.foldr_cons]
    rw [List.pairwise_cons] at hl
    exact insertDesc_stable key idx x _
      (fun y hy => hl.1 y (mem_sortDesc key xs y hy))
      (sortDesc_stable key idx xs hl.2)

lemma map_insertDesc {α β γ : Type} [LinearOrder γ] (f : α → β) (keya : α → γ) (keyb : β → γ)
    (hkey : ∀ a, keyb (f a) = keya a) (x : α) :
    ∀ l : List α, (insertDesc keya x l).map f = insertDesc keyb (f x) (l.map f)
  | [] => rfl
  | y :: ys => by
    rw [insertDesc, List.map_cons, insertDesc]
    rw [hkey x, hkey y]
    split
    · rw [List.map_cons, List.map_cons]
    · rw [List.map_cons, map_insertDesc f keya keyb hkey x ys]

lemma map_sortDesc {α β γ : Type} [LinearOrder γ] (f : α → β) (keya : α → γ) (keyb : β → γ)
    (hkey : ∀ a, keyb (f a) = keya a) :
    ∀ l : List α, (sortDesc keya l).map f = sortDesc keyb (l.map f)
  | [] => rfl
  | x :: xs => by
    have h1 : sortDesc keya (x :: xs) = insertDesc keya x (sortDesc keya xs) := rfl
    have h2 : sortDesc keyb (f x :: xs.map f) =
        insertDesc keyb (f x) (sortDesc keyb (xs.map f)) := rfl
    rw [List.map_cons, h1, h2, map_insertDesc f keya keyb hkey,
      map_sortDesc f keya keyb hkey xs]

lemma enum_pairwise_fst {α : Type} (l : List α) :
    l.enum.Pairwise (fun a b => a.1 < b.1) := by
  have h : (l.enum.map Prod.fst).Pairwise (· < ·) := by
    rw [List.enum_map_fst]
    exact List.pairwise_lt_range _
  rw [List.pairwise_map] at h
  exact h

/-! ## `rank_search_results` -/

/-- A document record as consumed by `rank_search_results` (dict with
`embedding`, `content`, `filename`). -/
structure SearchDoc where
  embedding : List ℝ
  content : PyStr
  filename : PyStr

/-- One ranked result: the document together with `relevance_score`,
`score_breakdown` and `snippet`. -/
structure RankedResult where
  doc : SearchDoc
  relevance_score : ℝ
  score_breakdown : ScoreBreakdown
  snippet : PyStr

/-- `generate_embedding` from `backend/search_service.py`: a 384-dimensional
zero vector for empty or whitespace-only text, otherwise the sentence
transformer (the abstract `model` parameter). -/
def generate_embedding (model : PyStr → List ℝ) (text : PyStr) : List ℝ :=
  if text = [] ∨ pyStrip text = [] then List.replicate 384 0 else model text

/-- The loop of `rank_search_results`: score every document, drop results whose
total is below `min_score`, attach a snippet; order of the input is kept. -/
def scoredResults (query_embedding : List ℝ) (query : PyStr)
    (documents : List SearchDoc) (min_score : ℝ) : List RankedResult :=
  documents.filterMap (fun doc =>
    let scores := calculate_hybrid_score query_embedding doc.embedding query
      doc.content doc.filename
    if scores.total < min_score then none
    else some { doc := doc, relevance_score := scores.total,
                score_breakdown := scores,
                snippet := extract_relevant_snippet query doc.content 200 })

open Classical in
/-- `rank_search_results` from `backend/search_service.py`. -/
def rank_search_results (model : PyStr → List ℝ) (query : PyStr)
    (documents : List SearchDoc) (min_score : ℝ) : List RankedResult :=
  if query = [] ∨ documents = [] then []
  else
    sortDesc (fun r => r.relevance_score)
      (scoredResults (generate_embedding model query) query documents min_score)

lemma scoredResults_min_score (qe : List ℝ) (q : PyStr) (docs : List SearchDoc)
    (m : ℝ) (r : RankedResult) (hr : r ∈ scoredResults qe q docs m) :
    m ≤ r.relevance_score := by
  rw [scoredResults, List.mem_filterMap] at hr
  obtain ⟨doc, _, heq⟩ := hr
  dsimp only at heq
  split at heq
  · cases heq
  · rename_i hge
    push_neg at hge
    cases heq
    exact hge

/-- C2: `rank_search_results` returns the empty list for an empty query or empty
document list; no returned element has total score below `min_score`; the
output is sorted non-increasingly by total score; and the sort is stable — the
output is the index-annotated scored list sorted so that consecutive elements
either strictly decrease in score or keep their original input order. -/
theorem C2_rank_filter_sort_stable (model : PyStr → List ℝ) (query : PyStr)
    (documents : List SearchDoc) (min_score : ℝ) :
    (query = [] ∨ documents = [] →
      rank_search_results model query documents min_score = []) ∧
    (∀ r ∈ rank_search_results model query documents min_score,
      min_score ≤ r.relevance_score) ∧
    (rank_search_results model query documents min_score).Pairwise
      (fun a b => b.relevance_score ≤ a.relevance_score) ∧
    (rank_search_results model query documents min_score ≠ [] →
      rank_search_results model query documents min_score =
        (sortDesc (fun p => p.2.relevance_score)
          ((scoredResults (generate_embedding model query) query documents
            min_score).enum)).map Prod.snd) ∧
    (sortDesc (fun p => p.2.relevance_score)
      ((scoredResults (generate_embedding model query) query documents
        min_score).enum)).Pairwise
      (fun a b => b.2.relevance_score < a.2.relevance_score ∨ a.1 < b.1) := by
  refine ⟨fun h => by rw [rank_search_results, if_pos h], ?_, ?_, ?_, ?_⟩
  · intro r hr
    rw [rank_search_results] at hr
    split at hr
    · cases hr
    · exact scoredResults_min_score _ _ _ _ r
        (mem_sortDesc _ _ r hr)
  · rw [rank_search_results]
    split
    · exact List.Pairwise.nil
    · exact sortDesc_sorted _ _
  · intro hne
    rw [rank_search_results]
    rw [rank_search_results] at hne
    split at hne
    · exact absurd rfl hne
    · rename_i hcond
      rw [if_neg hcond]
      rw [map_sortDesc (Prod.snd : ℕ × RankedResult → RankedResult)
        (fun p : ℕ × RankedResult => p.2.relevance_score)
        (fun r : RankedResult => r.relevance_score) (fun a => rfl),
        List.enum_map_snd]
  · exact sortDesc_stable _ _ _ (enum_pairwise_fst _)

/-- C2 witness: at the concrete empty-document input the theorem's conditional
parts apply; the ranker returns the empty list without error. -/
theorem C2_witness :
    rank_search_results (fun _ => [(1 : ℝ)]) ['a'] [] (1 / 10) = [] :=
  (C2_rank_filter_sort_stable (fun _ => [(1 : ℝ)]) ['a'] [] (1 / 10)).1 (Or.inr rfl)

/-- Stable ascending insertion, the mirror image of `insertDesc`. -/
def insertAsc {α β : Type} [LinearOrder β] (key : α → β) (x : α) : List α → List α
  | [] => [x]
  | y :: ys => if key x ≤ key y then x :: y :: ys else y :: insertAsc key x ys

/-- Stable sort, ascending by `key`: models `l.sort(key=key)`. -/
def sortAsc {α β : Type} [LinearOrder β] (key : α → β) (l : List α) : List α :=
  l.foldr (insertAsc key) []

lemma length_insertAsc {α β : Type} [LinearOrder β] (key : α → β) (x : α) :
    ∀ l : List α, (insertAsc key x l).length = l.length + 1
  | [] => rfl
  | y :: ys => by
    rw [insertAsc]
    split
    · rfl
    · rw [List.length_cons, length_insertAsc key x ys, List.length_cons]

lemma length_sortAsc {α β : Type} [LinearOrder β] (key : α → β) :
    ∀ l : List α, (sortAsc key l).length = l.length
  | [] => rfl
  | x :: xs => by
    rw [sortAsc, List.foldr_cons, length_insertAsc, List.length_cons]
    rw [show List.foldr (insertAsc key) [] xs = sortAsc key xs from rfl,
      length_sortAsc key xs]

lemma length_insertDesc {α β : Type} [LinearOrder β] (key : α → β) (x : α) :
    ∀ l : List α, (insertDesc key x l).length = l.length + 1
  | [] => rfl
  | y :: ys => by
    rw [insertDesc]
    split
    · rfl
    · rw [List.length_cons, length_insertDesc key x ys, List.length_cons]

lemma length_sortDesc {α β : Type} [LinearOrder β] (key : α → β) :
    ∀ l : List α, (sortDesc key l).length = l.length
  | [] => rfl
  | x :: xs => by
    rw [sortDesc, List.foldr_cons, length_insertDesc, List.length_cons]
    rw [show List.foldr (insertDesc key) [] xs = sortDesc key xs from rfl,
      length_sortDesc key xs]

/-! ## `backend/chat_service.py`: conversation-aware retrieval -/

/-- One message of the conversation history (`{'role': …, 'content': …}`). -/
structure ChatTurn where
  role : PyStr
  content : PyStr
  deriving DecidableEq

/-- A document as used by the chat service (`models.Document`); an absent
(`None`) embedding is modelled by the empty list. -/
structure ChatDoc where
  id : ℕ
  filename : PyStr
  content : PyStr
  embedding : List ℝ

/-- The query-expansion step of `get_relevant_documents`: the contents of the
last 2 user turns among the last 4 turns, joined ahead of the current query. -/
def enhancedQuery (conversation_history : List ChatTurn) (query : PyStr) : PyStr :=
  if conversation_history = [] then query
  else
    let recent_user_messages :=
      lastN 2 (((lastN 4 conversation_history).filter
        (fun m => m.role == "user".toList)).map (fun m => m.content))
    if recent_user_messages = [] then query
    else joinSp recent_user_messages ++ [' '] ++ query

/-- Maximal `\w+` runs: `re.findall(r'\w+', s)`. -/
def wordRuns (s : PyStr) : List PyStr :=
  (s.splitOnP (fun c => !isWordChar c)).filter (fun w => w ≠ [])

/-- The greedy excerpt accumulation loop of `extract_relevant_excerpt`: append
sentences while the running length stays within `max_length`, stopping at the
first that would overflow. -/
def buildExcerptParts (max_length : ℕ) : List (PyStr × ℕ) → ℕ → List PyStr
  | [], _ => []
  | (sentence, _) :: rest, current_length =>
    if max_length < current_length + sentence.length then []
    else sentence :: buildExcerptParts max_length rest (current_length + sentence.length)

/-- `extract_relevant_excerpt` from `backend/chat_service.py`.  `re.split`
on `[.!?]+` is modelled by splitting at every such character; the extra empty
pieces this produces are discarded by the `> 20` length filter exactly as in
the source. -/
def extract_relevant_excerpt (query content : PyStr) (max_length : ℕ) : PyStr :=
  if content = [] then []
  else
    let content := pyStrip content
    let query_lower := toLowerStr query
    let sentences :=
      ((content.splitOnP (fun c => c == '.' || c == '!' || c == '?')).map
        pyStrip).filter (fun s => 20 < s.length)
    if sentences = [] then
      if max_length < content.length then content.take max_length ++ "...".toList
      else content
    else
      let query_words :=
        ((wordRuns query_lower).filter (fun w => 3 < w.length)).toFinset
      let scored_sentences := sentences.map (fun sentence =>
        (sentence,
         (query_words.filter (fun w => containsSub w (toLowerStr sentence))).card))
      let sorted_sentences := sortDesc (fun p => p.2) scored_sentences
      let excerpt_parts := buildExcerptParts max_length (sorted_sentences.take 3) 0
      if excerpt_parts = [] then sentences.headD (content.take max_length)
      else
        let excerpt := pyJoin ". ".toList excerpt_parts
        if excerpt.length < content.length then excerpt ++ "...".toList else excerpt

/-- `get_relevant_documents` from `backend/chat_service.py`.  The three database
queries assembling the user's accessible documents (private + public + group)
are abstracted into the `accessible_docs` list. -/
def get_relevant_documents (model : PyStr → List ℝ) (accessible_docs : List ChatDoc)
    (query : PyStr) (conversation_history : List ChatTurn) (limit : ℕ) :
    List (ChatDoc × ℝ × PyStr) :=
  let query_embedding := generate_embedding model (enhancedQuery conversation_history query)
  let scored_documents := accessible_docs.filterMap (fun doc =>
    if doc.content.isEmpty || doc.embedding.isEmpty then none
    else
      some (doc,
        (calculate_hybrid_score query_embedding doc.embedding query doc.content
          doc.filename).total,
        extract_relevant_excerpt query doc.content 300))
  (sortDesc (fun x => x.2.1) scored_documents).take limit

lemma lastN_ne_nil {α : Type} (n : ℕ) (hn : 1 ≤ n) (l : List α) (hl : l ≠ []) :
    lastN n l ≠ [] := by
  rw [← List.length_pos, lastN, List.length_drop]
  have : 0 < l.length := List.length_pos.mpr hl
  omega

/-- C7: with conversation history present and containing user turns among its
last 4 entries, retrieval embeds the expanded query built from the contents of
the last 2 such user turns joined ahead of the current query.  In the concrete
scenario (history = user turn "What is the refund window?" plus an assistant
reply, query = "what about exceptions"), the text handed to the embedding
model is exactly the prior user turn followed by the new query. -/
theorem C7_query_expansion :
    (∀ (history : List ChatTurn) (query : PyStr), history ≠ [] →
      ((lastN 4 history).filter (fun m => m.role == "user".toList)).map
        (fun m => m.content) ≠ [] →
      enhancedQuery history query =
        joinSp (lastN 2 (((lastN 4 history).filter
          (fun m => m.role == "user".toList)).map (fun m => m.content))) ++
          [' '] ++ query) ∧
    enhancedQuery
      [⟨"user".toList, "What is the refund window?".toList⟩,
       ⟨"assistant".toList, "30 days".toList⟩]
      "what about exceptions".toList =
      "What is the refund window? what about exceptions".toList ∧
    (∀ model : PyStr → List ℝ,
      generate_embedding model (enhancedQuery
        [⟨"user".toList, "What is the refund window?".toList⟩,
         ⟨"assistant".toList, "30 days".toList⟩]
        "what about exceptions".toList) =
      model "What is the refund window? what about exceptions".toList) := by
  have hscenario : enhancedQuery
      [⟨"user".toList, "What is the refund window?".toList⟩,
       ⟨"assistant".toList, "30 days".toList⟩]
      "what about exceptions".toList =
      "What is the refund window? what about exceptions".toList := by decide
  refine ⟨?_, hscenario, ?_⟩
  · intro history query h1 h2
    rw [enhancedQuery, if_neg h1]
    dsimp only
    rw [if_neg (lastN_ne_nil 2 (by norm_num) _ h2)]
  · intro model
    rw [hscenario, generate_embedding, if_neg (by decide)]

/-- C7 witness: the general expansion law applied at the concrete scenario
history and query. -/
theorem C7_witness :
    enhancedQuery
      [⟨"user".toList, "What is the refund window?".toList⟩,
       ⟨"assistant".toList, "30 days".toList⟩]
      "what about exceptions".toList =
      joinSp (lastN 2 (((lastN 4
        ([⟨"user".toList, "What is the refund window?".toList⟩,
          ⟨"assistant".toList, "30 days".toList⟩] : List ChatTurn)).filter
          (fun m => m.role == "user".toList)).map (fun m => m.content))) ++
        [' '] ++ "what about exceptions".toList :=
  C7_query_expansion.1
    [⟨"user".toList, "What is the refund window?".toList⟩,
     ⟨"assistant".toList, "30 days".toList⟩]
    "what about exceptions".toList (by decide) (by decide)

/-- C10: `get_relevant_documents` never returns (hence never scores or cites) a
document with empty content or an absent/empty embedding — such documents are
skipped before scoring, whatever the query and history. -/
theorem C10_skips_empty_documents (model : PyStr → List ℝ)
    (accessible_docs : List ChatDoc) (query : PyStr)
    (conversation_history : List ChatTurn) (limit : ℕ) :
    ∀ x ∈ get_relevant_documents model accessible_docs query
      conversation_history limit, x.1.content ≠ [] ∧ x.1.embedding ≠ [] := by
  intro x hx
  rw [get_relevant_documents] at hx
  have hx2 := mem_sortDesc _ _ x (List.mem_of_mem_take hx)
  rw [List.mem_filterMap] at hx2
  obtain ⟨doc, _, heq⟩ := hx2
  split at heq
  · cases heq
  · rename_i hcond
    rw [Bool.or_eq_true, not_or] at hcond
    cases heq
    constructor
    · simpa using (Bool.not_eq_true _).mp hcond.1
    · simpa using (Bool.not_eq_true _).mp hcond.2

/-! ## Intent classification and templated responses (`backend/chat_service.py`) -/

/-- The greeting phrase list of `is_greeting`. -/
def greetingPhrases : List PyStr :=
  ["hello", "hi", "hey", "greetings", "good morning", "good afternoon",
   "good evening", "howdy", "sup", "yo"].map (fun s => s.toList)

/-- `is_greeting`: some greeting phrase occurs as a substring of the lowercased,
stripped query, and the query has at most 3 words. -/
def is_greeting (query : PyStr) : Bool :=
  let query_lower := pyStrip (toLowerStr query)
  greetingPhrases.any (fun g => containsSub g query_lower) &&
    decide ((splitWs query_lower).length ≤ 3)

/-- The phrase list of `is_about_locket`. -/
def locketKeywords : List PyStr :=
  ["what is locket", "what are you", "who are you", "tell me about yourself",
   "what do you do", "your purpose", "what can you do"].map (fun s => s.toList)

/-- `is_about_locket`. -/
def is_about_locket (query : PyStr) : Bool :=
  locketKeywords.any (fun k => containsSub k (pyStrip (toLowerStr query)))

/-- The phrase list of `is_general_conversation`. -/
def generalPatterns : List PyStr :=
  ["how are you", "what\x27s up", "thank you", "thanks", "bye", "goodbye",
   "nice", "cool", "okay", "ok", "got it", "i see", "interesting"].map
    (fun s => s.toList)

/-- `is_general_conversation`. -/
def is_general_conversation (query : PyStr) : Bool :=
  let query_lower := pyStrip (toLowerStr query)
  generalPatterns.any (fun p => containsSub p query_lower) &&
    decide ((splitWs query_lower).length ≤ 5)

/-- The canned greeting reply of `generate_chat_response`. -/
def greetingResponse : PyStr :=
  ("Hello! I\x27m Locket, your AI document assistant. I can help you find " ++
   "information in your uploaded documents, answer questions, and have a " ++
   "conversation about your content. What would you like to know?").toList

/-- The canned about-Locket reply of `generate_chat_response`. -/
def aboutLocketResponse : PyStr :=
  ("I\x27m Locket, an AI-powered document retrieval assistant. I help you find and understand information from your uploaded documents.\n\n" ++
   "Here\x27s what I can do:\n" ++
   "• Answer questions based on your documents\n" ++
   "• Search through PDFs, Word docs, and text files\n" ++
   "• Provide cited sources for my answers\n" ++
   "• Remember our conversation for context\n" ++
   "• Help you discover insights from your content\n\n" ++
   "Just ask me anything about your documents, and I\x27ll search through them to find the most relevant information!").toList

/-- The keyword-to-reply dictionary of the general-conversation branch, in
insertion order. -/
def generalResponses : List (PyStr × PyStr) :=
  [("thank".toList,
    "You\x27re welcome! Feel free to ask me anything else about your documents.".toList),
   ("bye".toList,
    "Goodbye! Come back anytime you need help with your documents.".toList),
   ("how are you".toList,
    "I\x27m doing great, thanks for asking! Ready to help you with your documents. What would you like to know?".toList),
   ("nice".toList,
    "Glad I could help! Let me know if you have any other questions.".toList),
   ("okay".toList,
    "Great! Is there anything else you\x27d like to know?".toList)]

/-- The general-conversation branch: first dictionary keyword found in the
lowercased query wins, otherwise a fixed fallback. -/
def generalConversationResponse (query : PyStr) : PyStr :=
  match generalResponses.find? (fun p => containsSub p.1 (toLowerStr query)) with
  | some p => p.2
  | none => "I\x27m here to help! Ask me anything about your documents.".toList

/-- `generate_no_documents_response` from `backend/chat_service.py`. -/
def generate_no_documents_response (query : PyStr) : PyStr :=
  if (["how", "what", "why", "when", "where", "who", "explain", "describe",
      "tell me"].map (fun s => s.toList)).any
      (fun w => containsSub w (toLowerStr query)) then
    ("I searched through your documents but couldn\x27t find specific information about that topic.\n\n" ++
     "Here are some suggestions:\n" ++
     "• Try rephrasing your question with different keywords\n" ++
     "• Check if you have uploaded documents related to this topic\n" ++
     "• Make sure the documents containing this information are uploaded and processed\n\n" ++
     "I\x27m here to help with any information in your documents. What else would you like to know?").toList
  else
    ("I don\x27t have any documents that contain information about that yet. " ++
     "If you upload documents related to this topic, I\x27ll be able to help answer your questions!\n\n" ++
     "In the meantime, feel free to ask me about anything in your currently uploaded documents.").toList

/-- The random intro phrases of `generate_contextual_response`; `random.choice`
is the abstract `pick` parameter. -/
def introPhrases : List PyStr :=
  ["Great question! I found some very relevant information.".toList,
   "I can help with that! Here\x27s what I found in your documents.".toList,
   "Perfect! I have good information about that.".toList]

open Classical in
/-- `generate_contextual_response` from `backend/chat_service.py` (only reached
with a non-empty document list). -/
def generate_contextual_response (pick : List PyStr → PyStr) (query : PyStr)
    (context : PyStr) (relevant_docs : List (ChatDoc × ℝ × PyStr)) : PyStr :=
  let doc_count := relevant_docs.length
  let doc_names := relevant_docs.map (fun x => x.1.filename)
  let best_score : ℝ := match relevant_docs with | [] => 0 | x :: _ => x.2.1
  let is_strong_match : Prop := (1 / 2 : ℝ) < best_score
  let intro : PyStr :=
    if is_strong_match then pick introPhrases ++ "\n".toList
    else if doc_count = 1 then
      "I found this in \x27".toList ++ doc_names.headD [] ++ "\x27:\n".toList
    else
      "I found information in ".toList ++ (Nat.repr doc_count).toList ++
        " documents that might help:\n".toList
  let excerptParts : List PyStr := (relevant_docs.take 3).filterMap (fun x =>
    if x.2.2 = [] then none
    else some (if 1 < doc_count then
        "\n**From ".toList ++ x.1.filename ++ ":**\n".toList ++
          pyStrip x.2.2 ++ "\n".toList
      else "\n".toList ++ pyStrip x.2.2 ++ "\n".toList))
  let conclusion : PyStr :=
    if 3 < doc_count then
      "\n[+] I also found ".toList ++ (Nat.repr (doc_count - 3)).toList ++
        " other document(s) with related information. Let me know if you\x27d like more details!".toList
    else if is_strong_match then
      "\n\nDoes this answer your question? Feel free to ask for clarification or more details!".toList
    else
      "\n\nThis is what I found that\x27s most relevant. If you need different information, try rephrasing your question!".toList
  pyJoin "\n".toList ([intro] ++ excerptParts ++ [conclusion])

/-- `generate_chat_response` from `backend/chat_service.py`: greeting, about,
general-conversation and no-documents branches each bypass the document context;
otherwise a contextual response is built over the supplied documents. -/
def generate_chat_response (pick : List PyStr → PyStr) (query : PyStr)
    (relevant_docs : List (ChatDoc × ℝ × PyStr)) : PyStr :=
  if is_greeting query then greetingResponse
  else if is_about_locket query then aboutLocketResponse
  else if is_general_conversation query then generalConversationResponse query
  else if relevant_docs.isEmpty then generate_no_documents_response query
  else
    let context := pyJoin "\n".toList (relevant_docs.map (fun x =>
      "From \x27".toList ++ x.1.filename ++ "\x27:\n".toList ++ x.2.2 ++
        "\n".toList))
    generate_contextual_response pick query context relevant_docs

/-- C8 counterexample: `"thanks"` is a message of at most 3 words — under the
claim's detection rule (phrase match **or** ≤ 3 words) it would be a greeting —
yet `generate_chat_response` returns the thank-you reply of the
general-conversation branch, not the canned greeting. -/
theorem C8_counterexample :
    (splitWs (pyStrip (toLowerStr "thanks".toList))).length ≤ 3 ∧
    is_greeting "thanks".toList = false ∧
    generate_chat_response (fun l => l.headD []) "thanks".toList [] =
      "You\x27re welcome! Feel free to ask me anything else about your documents.".toList ∧
    generate_chat_response (fun l => l.headD []) "thanks".toList [] ≠
      greetingResponse := by
  refine ⟨by decide, by decide, ?_, ?_⟩
  · rw [generate_chat_response]
    rw [if_neg (by decide), if_neg (by decide), if_pos (by decide)]
    decide
  · rw [generate_chat_response]
    rw [if_neg (by decide), if_neg (by decide), if_pos (by decide)]
    decide

/-- C8 (amended): every query the code detects as a greeting — a greeting
phrase occurring as a **substring** of the lowercased stripped message **and**
the message having at most 3 words — receives the canned greeting response,
whatever candidate documents and random choice function are supplied; `"hi"` is
such a query. -/
theorem C8_amended_greeting_bypass (pick : List PyStr → PyStr) (query : PyStr)
    (relevant_docs : List (ChatDoc × ℝ × PyStr))
    (h : is_greeting query = true) :
    generate_chat_response pick query relevant_docs = greetingResponse := by
  rw [generate_chat_response, if_pos h]

/-- C8 witness: `"hi"` is detected as a greeting and, with a non-empty concrete
document list, still receives the canned greeting reply. -/
theorem C8_witness :
    is_greeting "hi".toList = true ∧
    generate_chat_response (fun l => l.headD []) "hi".toList
      [(⟨1, "refund_policy.pdf".toList, "Refunds are accepted".toList, [1]⟩,
        (1 : ℝ), "Refunds are accepted".toList)] = greetingResponse :=
  ⟨by decide, C8_amended_greeting_bypass _ _ _ (by decide)⟩

/-! ## Chat citations (`create_chat_citations`) -/

/-- A `models.ChatCitation` row as created by `create_chat_citations`. -/
structure ChatCitation where
  chat_id : ℕ
  message_id : ℕ
  document_id : ℕ
  relevance_score : ℤ
  excerpt : Option PyStr

/-- Python `int()` applied to a float: truncation toward zero. -/
def pyInt (x : ℝ) : ℤ := if 0 ≤ x then ⌊x⌋ else -⌊-x⌋

/-- `create_chat_citations` from `backend/chat_service.py` (the database session
and commit are persistence effects outside the model; `created_at` is dropped). -/
def create_chat_citations (chat_id message_id : ℕ)
    (relevant_docs : List (ChatDoc × ℝ × PyStr)) : List ChatCitation :=
  relevant_docs.map (fun x =>
    { chat_id := chat_id
      message_id := message_id
      document_id := x.1.id
      relevance_score := pyInt (x.2.1 * 100)
      excerpt := if x.2.2 = [] then none else some (x.2.2.take 500) })

lemma zip_map_self {α β : Type} (f : α → β) :
    ∀ l : List α, ∀ p ∈ l.zip (l.map f), p.2 = f p.1
  | [], p, hp => absurd hp (by simp)
  | x :: xs, p, hp => by
    rw [List.map_cons, List.zip_cons_cons] at hp
    rcases List.mem_cons.mp hp with rfl | hp
    · rfl
    · exact zip_map_self f xs p hp

/-- C9 counterexample: a citation with total score `0.119` stores relevance
`int(11.9) = 11`, while rounding (`round(total*100)`) gives `12`. -/
theorem C9_counterexample :
    (create_chat_citations 1 1 [(⟨7, [], ['x'], []⟩, 0.119, ['e'])]).map
      (fun c => c.relevance_score) = [11] ∧
    roundHalfEven ((0.119 : ℝ) * 100) = 12 ∧ (11 : ℤ) ≠ 12 := by
  refine ⟨?_, ?_, by decide⟩
  · have h1 : pyInt ((0.119 : ℝ) * 100) = 11 := by
      rw [pyInt, if_pos (by norm_num)]
      rw [show (0.119 : ℝ) * 100 = 11.9 by norm_num, Int.floor_eq_iff]
      norm_num
    simp [create_chat_citations, h1]
  · have hfl : ⌊(0.119 : ℝ) * 100⌋ = 11 := by
      rw [show (0.119 : ℝ) * 100 = 11.9 by norm_num, Int.floor_eq_iff]
      norm_num
    rw [roundHalfEven, hfl]
    rw [if_neg (by push_cast; norm_num)]
    rw [if_pos (by push_cast; norm_num)]
    norm_num

/-- C9 (amended): each stored citation records, for its input tuple, the
relevance as `int(total·100)` — truncation toward zero, not rounding — which
lies in `0‥100` whenever the total lies in `[0,1]`, and an excerpt of at most
500 characters (absent when the excerpt was empty). -/
theorem C9_amended_citation_fields (chat_id message_id : ℕ)
    (relevant_docs : List (ChatDoc × ℝ × PyStr)) :
    (create_chat_citations chat_id message_id relevant_docs).length =
      relevant_docs.length ∧
    ∀ p ∈ relevant_docs.zip (create_chat_citations chat_id message_id
      relevant_docs),
      p.2.relevance_score = pyInt (p.1.2.1 * 100) ∧
      (0 ≤ p.1.2.1 → p.1.2.1 ≤ 1 →
        0 ≤ p.2.relevance_score ∧ p.2.relevance_score ≤ 100) ∧
      (∀ e, p.2.excerpt = some e → e.length ≤ 500) := by
  constructor
  · rw [create_chat_citations, List.length_map]
  · intro p hp
    have h2 := zip_map_self _ relevant_docs p hp
    rw [h2]
    dsimp only
    refine ⟨rfl, ?_, ?_⟩
    · intro h0 h1
      rw [pyInt, if_pos (by positivity)]
      constructor
      · exact Int.floor_nonneg.mpr (by positivity)
      · calc ⌊p.1.2.1 * 100⌋ ≤ ⌊(100 : ℝ)⌋ := Int.floor_mono (by nlinarith)
          _ = 100 := by norm_num
    · intro e he
      split at he
      · cases he
      · cases he
        exact List.length_take_le _ _

/-- C9 witness: the amended field laws applied at a concrete citation with
total score `1/2`: relevance `int(50) = 50` lies in `0‥100`. -/
theorem C9_witness :
    0 ≤ pyInt ((1 / 2 : ℝ) * 100) ∧ pyInt ((1 / 2 : ℝ) * 100) ≤ 100 := by
  have h := (C9_amended_citation_fields 0 0
    [(⟨0, [], ['c'], []⟩, 1 / 2, [])]).2
    ((⟨0, [], ['c'], []⟩, 1 / 2, ([] : PyStr)),
     { chat_id := 0
       message_id := 0
       document_id := 0
       relevance_score := pyInt ((1 / 2 : ℝ) * 100)
       excerpt := none })
    (List.mem_singleton.mpr rfl)
  exact h.2.1 (by norm_num) (by norm_num)

/-! ## The extractive summarizer (`generate_document_summary`)

Text normalization: `re.sub(r'\s+', ' ', …)`, the page-artifact removals, and
the sentence-boundary split are modelled character by character. -/

/-- `re.sub(r'\s+', ' ', s)`: collapse every whitespace run to one space. -/
def squashWs (s : PyStr) : PyStr :=
  s.foldr (fun c acc =>
    if c.isWhitespace then (if acc.head? = some ' ' then acc else ' ' :: acc)
    else c :: acc) []

/-- Try to match `(page|Page|PAGE)\s+\d+\b` at the start of `s` (the `\b` on the
left is the caller's responsibility); returns the remainder after the match. -/
def matchPage (s : PyStr) : Option PyStr :=
  if "page".toList.isPrefixOf s || "Page".toList.isPrefixOf s ||
      "PAGE".toList.isPrefixOf s then
    let r0 := s.drop 4
    let ws := r0.takeWhile Char.isWhitespace
    if ws = [] then none
    else
      let r1 := r0.drop ws.length
      let d := r1.takeWhile Char.isDigit
      if d = [] then none
      else
        let r2 := r1.drop d.length
        match r2.head? with
        | some c2 => if isWordChar c2 then none else some r2
        | none => some r2
  else none

/-- `re.sub(r'\b(page|Page|PAGE)\s+\d+\b', '', s)`: remove every such artifact.
`bnd` records whether the previous character was a non-word character (or the
string start), i.e. whether a `\b` boundary holds here; `skip` counts characters
of an already-matched artifact still to be dropped, so the scan is one character
per step. -/
def subPageNumGo (skip : ℕ) (bnd : Bool) : PyStr → PyStr
  | [] => []
  | c :: t =>
    if 0 < skip then subPageNumGo (skip - 1) (!isWordChar c) t
    else if bnd then
      match matchPage (c :: t) with
      | some rest => subPageNumGo (t.length - rest.length) (!isWordChar c) t
      | none => c :: subPageNumGo 0 (!isWordChar c) t
    else c :: subPageNumGo 0 (!isWordChar c) t

/-- Try to match `\d+\s+of\s+\d+` at the start of `s`; returns the remainder. -/
def matchNofN (s : PyStr) : Option PyStr :=
  let d1 := s.takeWhile Char.isDigit
  if d1 = [] then none
  else
    let r1 := s.drop d1.length
    let w1 := r1.takeWhile Char.isWhitespace
    if w1 = [] then none
    else
      let r2 := r1.drop w1.length
      if "of".toList.isPrefixOf r2 then
        let r3 := r2.drop 2
        let w2 := r3.takeWhile Char.isWhitespace
        if w2 = [] then none
        else
          let r4 := r3.drop w2.length
          let d2 := r4.takeWhile Char.isDigit
          if d2 = [] then none else some (r4.drop d2.length)
      else none

/-- `re.sub(r'\d+\s+of\s+\d+', '', s)`; `skip` counts characters of an
already-matched artifact still to be dropped. -/
def subNofNGo (skip : ℕ) : PyStr → PyStr
  | [] => []
  | c :: t =>
    if 0 < skip then subNofNGo (skip - 1) t
    else
      match matchNofN (c :: t) with
      | some rest => subNofNGo (t.length - rest.length) t
      | none => c :: subNofNGo 0 t

def isSentEnd (c : Char) : Bool := c == '.' || c == '!' || c == '?'

def isUpperAZ (c : Char) : Bool := 'A' ≤ c && c ≤ 'Z'

/-- The scanner of `re.split(r'(?<=[.!?])\s+(?=[A-Z])', s)`: close the current
sentence at a `[.!?]` character followed by whitespace and an upper-case
letter; the delimiter whitespace is consumed one character per step while
`skipping` is set. -/
def sentSplitGo (skipping : Bool) (acc : PyStr) : PyStr → List PyStr
  | [] => [acc.reverse]
  | c :: t =>
    if skipping && c.isWhitespace then sentSplitGo true acc t
    else if isSentEnd c &&
        (decide (t.takeWhile Char.isWhitespace ≠ []) &&
          (match (t.drop (t.takeWhile Char.isWhitespace).length).head? with
            | some u => isUpperAZ u
            | none => false)) then
      (c :: acc).reverse :: sentSplitGo true [] t
    else sentSplitGo false (c :: acc) t

/-- Sentence segmentation of the summarizer (the source applies it to
`content.strip()`). -/
def sentSplit (s : PyStr) : List PyStr := sentSplitGo false [] (pyStrip s)

/-- The punctuation characters counted by the quality filter
(`'.,;:!?-()[]{}'`, braces escaped). -/
def punctChars : PyStr := ".,;:!?-()[]\x7b\x7d".toList

/-- `^\d+\.?\s*\d*\.?\s*[A-Z]` with `re.IGNORECASE` (the letter class matches
any ASCII letter); the two optional dots are tried both ways, the greedy
classes are unambiguous. -/
def numberedHeaderMatch (s : PyStr) : Bool :=
  match s with
  | [] => false
  | c :: _ =>
    if c.isDigit then
      let r1 := s.dropWhile Char.isDigit
      let opts1 : List PyStr := r1 :: (match r1 with | '.' :: t => [t] | _ => [])
      opts1.any (fun s2 =>
        let s4 := (s2.dropWhile Char.isWhitespace).dropWhile Char.isDigit
        let opts2 : List PyStr := s4 :: (match s4 with | '.' :: t => [t] | _ => [])
        opts2.any (fun s5 =>
          match (s5.dropWhile Char.isWhitespace).head? with
          | some u => u.isAlpha
          | none => false))
    else false

/-- Words separated by `\s+`, each matched literally, starting at the
beginning of `s`. -/
def matchSeqAt : List PyStr → PyStr → Bool
  | [], _ => true
  | [w], s => w.isPrefixOf s
  | w :: w2 :: rest, s =>
    if w.isPrefixOf s then
      let r := s.drop w.length
      let ws := r.takeWhile Char.isWhitespace
      decide (ws ≠ []) && matchSeqAt (w2 :: rest) (r.drop ws.length)
    else false

/-- `re.search` of words separated by `\s+` anywhere in `s`. -/
def seqSearch (words : List PyStr) : PyStr → Bool
  | [] => matchSeqAt words []
  | c :: t => matchSeqAt words (c :: t) || seqSearch words t

/-- `re.search(w ++ '\s+[letter]')`: the word, whitespace, then any ASCII
letter (`[A-Z]` under `re.IGNORECASE`). -/
def searchWordWsLetter (w : PyStr) : PyStr → Bool
  | [] => false
  | c :: t =>
    (w.isPrefixOf (c :: t) &&
      (let r := (c :: t).drop w.length
       let ws := r.takeWhile Char.isWhitespace
       decide (ws ≠ []) && (match (r.drop ws.length).head? with
         | some u => u.isAlpha
         | none => false))) || searchWordWsLetter w t

/-- `^(figure|fig\.|table|tbl\.)\s+\d+` with `re.IGNORECASE`, checked on the
lowercased sentence. -/
def figureCaptionMatch (sl : PyStr) : Bool :=
  (["figure", "fig.", "table", "tbl."].map (fun s => s.toList)).any (fun p =>
    p.isPrefixOf sl &&
      (let r := sl.drop p.length
       let ws := r.takeWhile Char.isWhitespace
       decide (ws ≠ []) && (match (r.drop ws.length).head? with
         | some d => d.isDigit
         | none => false)))

/-- The `skip_patterns` loop of `is_quality_sentence` (all searched with
`re.IGNORECASE`; case-insensitive literals are checked on the lowercased
sentence). -/
def skipPatternMatch (sent : PyStr) : Bool :=
  let sl := toLowerStr sent
  numberedHeaderMatch sent ||
  containsSub "...".toList sent ||
  (decide (pyStrip sent ≠ []) && (pyStrip sent).all Char.isDigit) ||
  seqSearch (["table", "of", "contents"].map (fun s => s.toList)) sl ||
  searchWordWsLetter "appendix".toList sl ||
  containsSub "copyright".toList sl || sl.contains '©' ||
    containsSub "(c)".toList sl ||
  figureCaptionMatch sl ||
  decide (pyStrip sl = "references".toList) ||
    decide (pyStrip sl = "reference".toList) ||
  decide (pyStrip sl = "bibliography".toList)

/-- Python `str.isupper`: at least one cased character and no lower-case one
(cased restricted to ASCII letters). -/
def pyIsUpper (s : PyStr) : Bool :=
  s.any (fun c => c.isUpper || c.isLower) && s.all (fun c => !c.isLower)

/-- State scan of Python `str.istitle`: upper-case only after uncased,
lower-case only after cased. -/
def pyIsTitleGo : Bool → PyStr → Bool
  | _, [] => true
  | prevCased, c :: t =>
    if c.isUpper then !prevCased && pyIsTitleGo true t
    else if c.isLower then prevCased && pyIsTitleGo true t
    else pyIsTitleGo false t

/-- Python `str.istitle` (cased restricted to ASCII letters). -/
def pyIsTitle (s : PyStr) : Bool :=
  s.any (fun c => c.isUpper || c.isLower) && pyIsTitleGo false s

/-- The finite-verb list of the title-case check in `is_quality_sentence`. -/
def verbWords : List PyStr :=
  ["is", "are", "was", "were", "has", "have", "will", "can", "should"].map
    (fun s => s.toList)

/-- `is_quality_sentence` from `generate_document_summary`, checks in source
order.  The exact ratio comparisons (`count > word_count*0.4`,
`punct/len > 0.25`, `digits/len > 0.15`, `word_chars < len*0.65`) are written
as the equivalent integer cross-multiplications so the predicate stays
computable. -/
def is_quality_sentence (sent : PyStr) : Bool :=
  let sent := pyStrip sent
  let word_count := (splitWs sent).length
  if word_count < 8 || 50 < word_count then false
  else if decide (2 * word_count < 5 * sent.count '.') then false
  else if decide (sent.length <
      4 * (sent.filter (fun c => punctChars.contains c)).length) then false
  else if decide (3 * sent.length <
      20 * (sent.filter Char.isDigit).length) then false
  else if skipPatternMatch sent then false
  else if decide (20 * (sent.filter (fun c => c.isAlpha || c.isWhitespace)).length <
      13 * sent.length) then false
  else if pyIsUpper sent then false
  else if pyIsTitle sent &&
      !(verbWords.any (fun w => containsSub w (toLowerStr sent))) then false
  else true

/-- The `key_indicators` lexicon of `generate_document_summary`. -/
def keyIndicators : List PyStr :=
  ["purpose", "objective", "goal", "aims", "designed", "focuses", "examines",
   "proposes", "describes", "presents", "introduces", "analyzes", "discusses",
   "demonstrates", "explores", "investigates", "reveals", "shows", "finds",
   "concludes", "recommends", "suggests", "argues", "claims", "emphasizes",
   "highlights", "important", "significant", "critical", "essential", "key",
   "main", "primary", "fundamental", "central", "major", "crucial"].map
    (fun s => s.toList)

/-- `re.search(r'\b(first\s+(alt1|alt2|…))', s)`: `first` at a word boundary,
whitespace, then one of the alternatives as a prefix (no closing boundary);
`bnd` tracks whether the previous character was a non-word character. -/
def boundedSeqGo (first : PyStr) (alts : List PyStr) : Bool → PyStr → Bool
  | _, [] => false
  | bnd, c :: t =>
    (bnd && first.isPrefixOf (c :: t) &&
      (let r := (c :: t).drop first.length
       let ws := r.takeWhile Char.isWhitespace
       decide (ws ≠ []) &&
         alts.any (fun a => a.isPrefixOf (r.drop ws.length)))) ||
    boundedSeqGo first alts (!isWordChar c) t

def boundedSeqSearch (first : PyStr) (alts : List PyStr) (s : PyStr) : Bool :=
  boundedSeqGo first alts true s

/-- `get_sentence_importance_score` from `generate_document_summary`:
`0.5` per key indicator present plus the three strong-pattern bonuses. -/
def get_sentence_importance_score (sent : PyStr) : ℚ :=
  let sl := toLowerStr sent
  ((keyIndicators.filter (fun ind => containsSub ind sl)).length : ℚ) * (1 / 2) +
  (if boundedSeqSearch "this".toList
      (["paper", "document", "study", "research", "report", "article"].map
        (fun s => s.toList)) sl then 1 else 0) +
  (if boundedSeqSearch "we".toList
      (["present", "propose", "introduce", "describe", "analyze",
        "demonstrate"].map (fun s => s.toList)) sl then 4 / 5 else 0) +
  (if (boundedSeqSearch "results".toList
      (["show", "indicate", "suggest", "demonstrate", "reveal"].map
        (fun s => s.toList)) sl ||
    boundedSeqSearch "result".toList
      (["show", "indicate", "suggest", "demonstrate", "reveal"].map
        (fun s => s.toList)) sl) then 7 / 10 else 0)

/-- The cleaned content of `generate_document_summary`: whitespace collapsed,
then `page N` and `N of M` artifacts removed. -/
def normalizedContent (content : PyStr) : PyStr :=
  subNofNGo 0 (subPageNumGo 0 true (squashWs content))

/-- The sentence list of the summarizer. -/
def summarySentences (content : PyStr) : List PyStr :=
  sentSplit (normalizedContent content)

/-- Quality sentences paired with their importance scores; the stripped
sentence is stored, the importance is computed on the unstripped one, exactly
as in the source loop. -/
def qualityPrimary (content : PyStr) : List (PyStr × ℚ) :=
  ((summarySentences content).filter is_quality_sentence).map
    (fun s => (pyStrip s, get_sentence_importance_score s))

/-- The relaxed fallback filter (`5 ≤ len(s.split()) ≤ 40`, zero importance)
used when the primary filter keeps nothing. -/
def qualityWithFallback (content : PyStr) : List (PyStr × ℚ) :=
  let qp := qualityPrimary content
  if qp = [] then
    ((summarySentences content).filter (fun s =>
      decide (pyStrip s ≠ []) && decide (5 ≤ (splitWs s).length) &&
        decide ((splitWs s).length ≤ 40))).map (fun s => (pyStrip s, (0 : ℚ)))
  else qp

def quality_sentences (content : PyStr) : List PyStr :=
  (qualityWithFallback content).map Prod.fst

def importance_scores (content : PyStr) : List ℚ :=
  (qualityWithFallback content).map Prod.snd

/-- One scored summary candidate: the tuple `(i, score, sentence)` of the
source. -/
structure SentCand where
  idx : ℕ
  score : ℝ
  sent : PyStr

/-- The cosine used inside the summarizer (`np.dot` over the norm product,
with no zero-norm guard; division by zero is the junk value 0 rather than
`nan`). -/
def rawCos (u v : List ℝ) : ℝ := dotL u v / (normL u * normL v)

open Classical in
/-- The comprehensive per-sentence scores of `generate_document_summary`
step 6: document similarity times position, length and importance weights. -/
def sentenceCands (encode : PyStr → List ℝ) (content : PyStr) : List SentCand :=
  let quality := quality_sentences content
  let imps := importance_scores content
  let sentence_embeddings := quality.map encode
  let doc_embedding := encode (normalizedContent content)
  sentence_embeddings.enum.map (fun p =>
    let i : ℕ := p.1
    let doc_sim := rawCos p.2 doc_embedding
    let position_weight : ℝ :=
      if ((i : ℝ) / (quality.length : ℝ)) < 0.15 then 1.5
      else if ((i : ℝ) / (quality.length : ℝ)) < 0.35 then 1.3
      else if 0.85 < ((i : ℝ) / (quality.length : ℝ)) then 1.1
      else 0.9
    let word_count := (splitWs (quality.getD i [])).length
    let length_weight : ℝ :=
      if 15 ≤ word_count ∧ word_count ≤ 30 then 1.2
      else if 10 ≤ word_count ∧ word_count ≤ 35 then 1.0
      else 0.8
    let importance_weight : ℝ := 1 + ((imps.getD i 0 : ℚ) : ℝ)
    ⟨i, doc_sim * position_weight * length_weight * importance_weight,
      quality.getD i []⟩)

open Classical in
/-- The greedy selection loop of step 6: pop the best-scored candidate, then
(while slots and candidates remain) penalize the rest by `0.3·similarity` to
the just-selected sentence and re-sort. -/
def selectLoopGo (embs : List (List ℝ)) : ℕ → List SentCand → List SentCand
  | 0, _ => []
  | _ + 1, [] => []
  | k + 1, best :: rest =>
    best ::
      (if 0 < k ∧ rest ≠ [] then
        selectLoopGo embs k (sortDesc (fun c => c.score)
          (rest.map (fun item =>
            let similarity := rawCos (embs.getD best.idx []) (embs.getD item.idx [])
            ⟨item.idx, item.score * (1 - similarity * 0.3), item.sent⟩)))
      else selectLoopGo embs k rest)

/-- The selected sentences of step 6, re-ordered by original position
(step 7). -/
def selectionStage (encode : PyStr → List ℝ) (content : PyStr)
    (max_sentences : ℕ) : List SentCand :=
  sortAsc (fun c => c.idx)
    (selectLoopGo ((quality_sentences content).map encode) max_sentences
      (sortDesc (fun c => c.score) (sentenceCands encode content)))

open Classical in
/-- Step 8: if the assembled summary exceeds 600 characters and more than 3
sentences were selected, keep only the first 3 (in position order). -/
def cappedSelection (encode : PyStr → List ℝ) (content : PyStr)
    (max_sentences : ℕ) : List SentCand :=
  let sel := selectionStage encode content max_sentences
  if 600 < (joinSp (sel.map (fun c => c.sent))).length ∧ 3 < sel.length then
    sel.take 3
  else sel

def emptyDocMessage : PyStr :=
  "This document appears to be empty or contains no readable text.".toList

def noValidMessage : PyStr :=
  "Unable to generate summary - no valid sentences found in document.".toList

/-- `generate_document_summary` from `backend/search_service.py`.  The
sentence-transformer is the abstract total `encode` parameter, so the
`except` fallback of the source (importance-only ranking on model failure) is
unreachable in the model; `filename` is accepted and unused as in the source. -/
def generate_document_summary (encode : PyStr → List ℝ)
    (content filename : PyStr) (max_sentences : ℕ) : PyStr :=
  if content = [] ∨ pyStrip content = [] then emptyDocMessage
  else
    let quality := quality_sentences content
    if quality = [] then noValidMessage
    else if quality.length ≤ max_sentences then joinSp (quality.take max_sentences)
    else
      joinSp ((cappedSelection encode content max_sentences).map (fun c => c.sent))

/-! ## Whitespace-only content yields no quality sentences -/

lemma squashWs_cons (c : Char) (t : PyStr) :
    squashWs (c :: t) = if c.isWhitespace then
      (if (squashWs t).head? = some ' ' then squashWs t else ' ' :: squashWs t)
    else c :: squashWs t := rfl

lemma squashWs_all_ws (s : PyStr) (h : ∀ c ∈ s, c.isWhitespace) :
    ∀ c ∈ squashWs s, c = ' ' := by
  induction s with
  | nil => intro c hc; cases hc
  | cons a t ih =>
    have ha : a.isWhitespace := h a (List.mem_cons_self _ _)
    have ih' := ih (fun c hc => h c (List.mem_cons_of_mem _ hc))
    intro c hc
    rw [squashWs_cons, if_pos ha] at hc
    split at hc
    · exact ih' c hc
    · rcases List.mem_cons.mp hc with rfl | hc
      · rfl
      · exact ih' c hc

lemma matchPage_space (t : PyStr) : matchPage (' ' :: t) = none := by
  rw [matchPage, if_neg]
  simp [List.isPrefixOf]

lemma subPageNumGo_spaces (s : PyStr) (h : ∀ c ∈ s, c = ' ') (b : Bool) :
    subPageNumGo 0 b s = s := by
  induction s generalizing b with
  | nil => rfl
  | cons c t ih =>
    have hc : c = ' ' := h c (List.mem_cons_self _ _)
    subst hc
    have ih' := ih (fun c hc => h c (List.mem_cons_of_mem _ hc))
    rw [subPageNumGo, if_neg (by omega)]
    cases b
    · simp [ih']
    · rw [if_pos rfl]
      split
      · rename_i rest heq
        rw [matchPage_space] at heq
        cases heq
      · simp [ih']

lemma matchNofN_space (t : PyStr) : matchNofN (' ' :: t) = none := by
  rw [matchNofN]
  simp [List.takeWhile_cons]

lemma subNofNGo_spaces (s : PyStr) (h : ∀ c ∈ s, c = ' ') :
    subNofNGo 0 s = s := by
  induction s with
  | nil => rfl
  | cons c t ih =>
    have hc : c = ' ' := h c (List.mem_cons_self _ _)
    subst hc
    have ih' := ih (fun c hc => h c (List.mem_cons_of_mem _ hc))
    rw [subNofNGo, if_neg (by omega)]
    split
    · rename_i rest heq
      rw [matchNofN_space] at heq
      cases heq
    · rw [ih']

lemma pyStrip_eq_nil_mem (s : PyStr) (h : pyStrip s = []) :
    ∀ c ∈ s, c.isWhitespace := by
  rw [pyStrip, List.reverse_eq_nil_iff, List.dropWhile_eq_nil_iff] at h
  have h2 : ∀ c ∈ s.dropWhile Char.isWhitespace, c.isWhitespace := by
    intro c hc
    exact h c (List.mem_reverse.mpr hc)
  intro c hc
  rw [← List.takeWhile_append_dropWhile (p := Char.isWhitespace) (l := s)] at hc
  rcases List.mem_append.mp hc with hc | hc
  · exact List.mem_takeWhile_imp hc
  · exact h2 c hc

lemma pyStrip_of_all_ws (s : PyStr) (h : ∀ c ∈ s, c.isWhitespace) :
    pyStrip s = [] := by
  rw [pyStrip, List.reverse_eq_nil_iff, List.dropWhile_eq_nil_iff]
  intro c hc
  rw [List.mem_reverse] at hc
  exact h c ((List.dropWhile_sublist _).subset hc)

lemma quality_of_stripped_empty (content : PyStr) (h : pyStrip content = []) :
    quality_sentences content = [] := by
  have hws : ∀ c ∈ content, c.isWhitespace := pyStrip_eq_nil_mem content h
  have hsq : ∀ c ∈ squashWs content, c = ' ' := squashWs_all_ws content hws
  have hnorm : normalizedContent content = squashWs content := by
    rw [normalizedContent, subPageNumGo_spaces _ hsq, subNofNGo_spaces _ hsq]
  have hstrip : pyStrip (normalizedContent content) = [] := by
    rw [hnorm]
    exact pyStrip_of_all_ws _ (fun c hc => by rw [hsq c hc]; decide)
  have hsent : summarySentences content = [[]] := by
    rw [summarySentences, sentSplit, hstrip]
    rfl
  rw [quality_sentences, qualityWithFallback, qualityPrimary, hsent]
  decide

/-! ## C5: summary sentence counts -/

lemma selectLoopGo_length (embs : List (List ℝ)) :
    ∀ (k : ℕ) (l : List SentCand), (selectLoopGo embs k l).length ≤ k
  | 0, _ => by rw [selectLoopGo]; simp
  | _ + 1, [] => by rw [selectLoopGo]; simp
  | k + 1, best :: rest => by
    rw [selectLoopGo]
    simp only [List.length_cons]
    split
    · exact Nat.succ_le_succ (selectLoopGo_length embs k _)
    · exact Nat.succ_le_succ (selectLoopGo_length embs k _)

lemma cappedSelection_length (encode : PyStr → List ℝ) (content : PyStr)
    (n : ℕ) : (cappedSelection encode content n).length ≤ n := by
  have h1 : (selectionStage encode content n).length ≤ n := by
    rw [selectionStage, length_sortAsc]
    exact selectLoopGo_length _ _ _
  rw [cappedSelection]
  split
  · rename_i hc
    rw [List.length_take]
    omega
  · exact h1

/-- The sentence list whose space-join the summarizer returns in the non-message
branches: all quality sentences (short-circuit) or the capped selection. -/
def summaryPieces (encode : PyStr → List ℝ) (content : PyStr) (n : ℕ) :
    List PyStr :=
  if (quality_sentences content).length ≤ n then (quality_sentences content).take n
  else (cappedSelection encode content n).map (fun c => c.sent)

/-- C5 counterexample: the non-empty content `"xx"` has zero quality sentences
(zero ≤ any `n`), yet the summarizer returns the fixed "Unable to generate
summary" message rather than the join of those (zero) sentences. -/
theorem C5_counterexample :
    quality_sentences "xx".toList = [] ∧
    generate_document_summary (fun _ => []) "xx".toList "f".toList 4 =
      noValidMessage ∧
    noValidMessage ≠ joinSp ([] : List PyStr) := by
  refine ⟨by decide, ?_, by decide⟩
  rw [generate_document_summary, if_neg (by decide)]
  dsimp only
  rw [if_pos (by decide)]

/-- C5 (amended): for `n ≥ 1`, when the document has at least `n` quality
sentences the summarizer returns the space-join of at most `n` sentence pieces,
and when it has at least one and at most `n` quality sentences it returns
exactly those quality sentences joined in original document order. -/
theorem C5_amended_summary_counts (encode : PyStr → List ℝ)
    (content filename : PyStr) (n : ℕ) (hn : 1 ≤ n) :
    (n ≤ (quality_sentences content).length →
      (summaryPieces encode content n).length ≤ n ∧
      generate_document_summary encode content filename n =
        joinSp (summaryPieces encode content n)) ∧
    (quality_sentences content ≠ [] → (quality_sentences content).length ≤ n →
      generate_document_summary encode content filename n =
        joinSp (quality_sentences content)) := by
  constructor
  · intro hA
    have hq : quality_sentences content ≠ [] := by
      intro he
      rw [he] at hA
      simp at hA
      omega
    have hstrip : pyStrip content ≠ [] := fun hs =>
      hq (quality_of_stripped_empty content hs)
    have hcontent : content ≠ [] := fun hc => hstrip (by rw [hc]; rfl)
    constructor
    · rw [summaryPieces]
      split
      · rw [List.length_take]
        omega
      · rw [List.length_map]
        exact cappedSelection_length encode content n
    · rw [generate_document_summary,
        if_neg (by push_neg; exact ⟨hcontent, hstrip⟩)]
      dsimp only
      rw [if_neg hq, summaryPieces]
      by_cases hle : (quality_sentences content).length ≤ n
      · rw [if_pos hle, if_pos hle]
      · rw [if_neg hle, if_neg hle]
  · intro hq hle
    have hstrip : pyStrip content ≠ [] := fun hs =>
      hq (quality_of_stripped_empty content hs)
    have hcontent : content ≠ [] := fun hc => hstrip (by rw [hc]; rfl)
    rw [generate_document_summary,
      if_neg (by push_neg; exact ⟨hcontent, hstrip⟩)]
    dsimp only
    rw [if_neg hq, if_pos hle, List.take_of_length_le hle]

set_option maxRecDepth 40000 in
/-- C5 witness: a one-sentence document with `n = 1` exercises both halves of
the amended claim: the summary is that single quality sentence. -/
theorem C5_witness :
    (summaryPieces (fun _ => [])
      "This simple document describes a small example for testing purposes.".toList
      1).length ≤ 1 ∧
    generate_document_summary (fun _ => [])
      "This simple document describes a small example for testing purposes.".toList
      "f".toList 1 =
      joinSp (summaryPieces (fun _ => [])
        "This simple document describes a small example for testing purposes.".toList 1) ∧
    generate_document_summary (fun _ => [])
      "This simple document describes a small example for testing purposes.".toList
      "f".toList 1 =
      joinSp (quality_sentences
        "This simple document describes a small example for testing purposes.".toList) := by
  obtain ⟨hA, hB⟩ := C5_amended_summary_counts (fun _ => [])
    "This simple document describes a small example for testing purposes.".toList
    "f".toList 1 (by norm_num)
  obtain ⟨h1, h2⟩ := hA (by decide)
  exact ⟨h1, h2, hB (by decide) (by decide)⟩

/-! ## C6: the 600-character cap

A concrete five-sentence document together with a concrete embedding function
(orthonormal sentence embeddings, document vector `[7,3,4,5,1]`) on which the
cap fires and demonstrably keeps the first three selected sentences by document
position, not the top three by score. -/

def c6S0 : PyStr :=
  ("The old garden behind the stone cottage was full of tall sunflowers " ++
   "that leaned gently over the wooden fence while bees wandered lazily " ++
   "between the bright yellow petals.").toList

def c6S1 : PyStr :=
  ("Every morning the gardener carried fresh water from the well and " ++
   "poured it slowly around the roots so the warm summer air would not " ++
   "dry the tender young plants.").toList

def c6S2 : PyStr :=
  ("Under the shade of the apple tree a grey cat slept through the " ++
   "afternoon while sparrows hopped across the gravel path and pecked " ++
   "quietly at the fallen crumbs.").toList

def c6S3 : PyStr :=
  ("When the evening rain finally arrived the leaves turned a deeper " ++
   "shade of green and the whole garden smelled of wet earth and " ++
   "blooming roses near the gate.").toList

def c6S4 : PyStr :=
  ("At night the silver moon rose slowly above the quiet hills and the " ++
   "crickets sang softly in the hedges until the first pale light of " ++
   "dawn returned.").toList

def c6Content : PyStr :=
  c6S0 ++ [' '] ++ c6S1 ++ [' '] ++ c6S2 ++ [' '] ++ c6S3 ++ [' '] ++ c6S4

/-- The concrete stand-in for the sentence-transformer in the C6 scenario. -/
def c6Enc (s : PyStr) : List ℝ :=
  if s = c6S0 then [1, 0, 0, 0, 0]
  else if s = c6S1 then [0, 1, 0, 0, 0]
  else if s = c6S2 then [0, 0, 1, 0, 0]
  else if s = c6S3 then [0, 0, 0, 1, 0]
  else if s = c6S4 then [0, 0, 0, 0, 1]
  else if s = c6Content then [7, 3, 4, 5, 1]
  else []

set_option maxRecDepth 100000 in
lemma c6_filter :
    (summarySentences c6Content).filter is_quality_sentence =
      [c6S0, c6S1, c6S2, c6S3, c6S4] := by
  decide

set_option maxRecDepth 100000 in
lemma c6_norm : normalizedContent c6Content = c6Content := by
  decide

set_option maxRecDepth 100000 in
lemma c6_strip0 : pyStrip c6S0 = c6S0 := by
  decide

set_option maxRecDepth 100000 in
lemma c6_imp0 : get_sentence_importance_score c6S0 = 0 := by
  rw [get_sentence_importance_score]
  rw [show keyIndicators.filter (fun ind => containsSub ind (toLowerStr c6S0)) = []
    from by decide]
  rw [if_neg (by decide), if_neg (by decide), if_neg (by decide)]
  norm_num

set_option maxRecDepth 100000 in
lemma c6_strip1 : pyStrip c6S1 = c6S1 := by
  decide

set_option maxRecDepth 100000 in
lemma c6_imp1 : get_sentence_importance_score c6S1 = 0 := by
  rw [get_sentence_importance_score]
  rw [show keyIndicators.filter (fun ind => containsSub ind (toLowerStr c6S1)) = []
    from by decide]
  rw [if_neg (by decide), if_neg (by decide), if_neg (by decide)]
  norm_num

set_option maxRecDepth 100000 in
lemma c6_strip2 : pyStrip c6S2 = c6S2 := by
  decide

set_option maxRecDepth 100000 in
lemma c6_imp2 : get_sentence_importance_score c6S2 = 0 := by
  rw [get_sentence_importance_score]
  rw [show keyIndicators.filter (fun ind => containsSub ind (toLowerStr c6S2)) = []
    from by decide]
  rw [if_neg (by decide), if_neg (by decide), if_neg (by decide)]
  norm_num

set_option maxRecDepth 100000 in
lemma c6_strip3 : pyStrip c6S3 = c6S3 := by
  decide

set_option maxRecDepth 100000 in
lemma c6_imp3 : get_sentence_importance_score c6S3 = 0 := by
  rw [get_sentence_importance_score]
  rw [show keyIndicators.filter (fun ind => containsSub ind (toLowerStr c6S3)) = []
    from by decide]
  rw [if_neg (by decide), if_neg (by decide), if_neg (by decide)]
  norm_num

set_option maxRecDepth 100000 in
lemma c6_strip4 : pyStrip c6S4 = c6S4 := by
  decide

set_option maxRecDepth 100000 in
lemma c6_imp4 : get_sentence_importance_score c6S4 = 0 := by
  rw [get_sentence_importance_score]
  rw [show keyIndicators.filter (fun ind => containsSub ind (toLowerStr c6S4)) = []
    from by decide]
  rw [if_neg (by decide), if_neg (by decide), if_neg (by decide)]
  norm_num

lemma c6_qwf : qualityWithFallback c6Content =
    [(c6S0, 0), (c6S1, 0), (c6S2, 0), (c6S3, 0), (c6S4, 0)] := by
  rw [qualityWithFallback, qualityPrimary, c6_filter]
  simp only [List.map_cons, List.map_nil]
  rw [if_neg (by simp)]
  rw [c6_strip0, c6_strip1, c6_strip2, c6_strip3, c6_strip4,
    c6_imp0, c6_imp1, c6_imp2, c6_imp3, c6_imp4]

lemma c6_quality : quality_sentences c6Content = [c6S0, c6S1, c6S2, c6S3, c6S4] := by
  rw [quality_sentences, c6_qwf]
  rfl

lemma c6_imps : importance_scores c6Content = [0, 0, 0, 0, 0] := by
  rw [importance_scores, c6_qwf]
  rfl
lemma c6_normSq_v : normSqL [(7 : ℝ), 3, 4, 5, 1] = 100 := by
  norm_num [normSqL, dotL]

lemma c6_norm_v : normL [(7 : ℝ), 3, 4, 5, 1] = 10 := by
  rw [normL, c6_normSq_v, show (100 : ℝ) = 10 ^ 2 by norm_num]
  exact Real.sqrt_sq (by norm_num)

lemma c6_norm_e0 : normL [(1 : ℝ), 0, 0, 0, 0] = 1 := by
  rw [normL, show normSqL [(1 : ℝ), 0, 0, 0, 0] = 1 by norm_num [normSqL, dotL]]
  exact Real.sqrt_one

lemma c6_norm_e1 : normL [(0 : ℝ), 1, 0, 0, 0] = 1 := by
  rw [normL, show normSqL [(0 : ℝ), 1, 0, 0, 0] = 1 by norm_num [normSqL, dotL]]
  exact Real.sqrt_one

lemma c6_norm_e2 : normL [(0 : ℝ), 0, 1, 0, 0] = 1 := by
  rw [normL, show normSqL [(0 : ℝ), 0, 1, 0, 0] = 1 by norm_num [normSqL, dotL]]
  exact Real.sqrt_one

lemma c6_norm_e3 : normL [(0 : ℝ), 0, 0, 1, 0] = 1 := by
  rw [normL, show normSqL [(0 : ℝ), 0, 0, 1, 0] = 1 by norm_num [normSqL, dotL]]
  exact Real.sqrt_one

lemma c6_norm_e4 : normL [(0 : ℝ), 0, 0, 0, 1] = 1 := by
  rw [normL, show normSqL [(0 : ℝ), 0, 0, 0, 1] = 1 by norm_num [normSqL, dotL]]
  exact Real.sqrt_one

set_option maxRecDepth 100000 in
lemma c6_embs : [c6S0, c6S1, c6S2, c6S3, c6S4].map c6Enc =
    [[(1 : ℝ), 0, 0, 0, 0], [0, 1, 0, 0, 0], [0, 0, 1, 0, 0],
     [0, 0, 0, 1, 0], [0, 0, 0, 0, 1]] := by
  simp only [List.map_cons, List.map_nil]
  rw [show c6Enc c6S0 = [(1 : ℝ), 0, 0, 0, 0] from by rw [c6Enc, if_pos rfl]]
  rw [show c6Enc c6S1 = [(0 : ℝ), 1, 0, 0, 0] from by
    rw [c6Enc, if_neg (by decide), if_pos rfl]]
  rw [show c6Enc c6S2 = [(0 : ℝ), 0, 1, 0, 0] from by
    rw [c6Enc, if_neg (by decide), if_neg (by decide), if_pos rfl]]
  rw [show c6Enc c6S3 = [(0 : ℝ), 0, 0, 1, 0] from by
    rw [c6Enc, if_neg (by decide), if_neg (by decide), if_neg (by decide),
      if_pos rfl]]
  rw [show c6Enc c6S4 = [(0 : ℝ), 0, 0, 0, 1] from by
    rw [c6Enc, if_neg (by decide), if_neg (by decide), if_neg (by decide),
      if_neg (by decide), if_pos rfl]]

set_option maxRecDepth 100000 in
lemma c6_doc : c6Enc (normalizedContent c6Content) = [(7 : ℝ), 3, 4, 5, 1] := by
  rw [c6_norm, c6Enc, if_neg (by decide), if_neg (by decide),
    if_neg (by decide), if_neg (by decide), if_neg (by decide), if_pos rfl]

set_option maxRecDepth 100000 in
lemma c6_cands : sentenceCands c6Enc c6Content =
    [⟨0, 1.26, c6S0⟩, ⟨1, 0.468, c6S1⟩, ⟨2, 0.432, c6S2⟩,
     ⟨3, 0.54, c6S3⟩, ⟨4, 0.108, c6S4⟩] := by
  rw [sentenceCands]
  dsimp only
  rw [c6_quality, c6_imps, c6_doc, c6_embs]
  rw [show ([[(1 : ℝ), 0, 0, 0, 0], [0, 1, 0, 0, 0], [0, 0, 1, 0, 0],
      [0, 0, 0, 1, 0], [0, 0, 0, 0, 1]] : List (List ℝ)).enum =
    [(0, [(1 : ℝ), 0, 0, 0, 0]), (1, [0, 1, 0, 0, 0]), (2, [0, 0, 1, 0, 0]),
     (3, [0, 0, 0, 1, 0]), (4, [0, 0, 0, 0, 1])] from rfl]
  simp only [List.map_cons, List.map_nil, List.cons.injEq, and_true]
  refine ⟨?_, ?_, ?_, ?_, ?_⟩
  · dsimp only
    simp only [SentCand.mk.injEq]
    refine ⟨by trivial, ?_, by trivial⟩
    rw [rawCos, c6_norm_e0, c6_norm_v]
    rw [show dotL [(1 : ℝ), 0, 0, 0, 0] [(7 : ℝ), 3, 4, 5, 1] = 7 by norm_num [dotL]]
    rw [show ([c6S0, c6S1, c6S2, c6S3, c6S4].getD 0 ([] : PyStr)) = c6S0 from rfl]
    rw [show (splitWs c6S0).length = 28 from by decide]
    rw [show (([(0 : ℚ), 0, 0, 0, 0].getD 0 0 : ℚ) : ℝ) = 0 from by norm_num]
    norm_num
  · dsimp only
    simp only [SentCand.mk.injEq]
    refine ⟨by trivial, ?_, by trivial⟩
    rw [rawCos, c6_norm_e1, c6_norm_v]
    rw [show dotL [(0 : ℝ), 1, 0, 0, 0] [(7 : ℝ), 3, 4, 5, 1] = 3 by norm_num [dotL]]
    rw [show ([c6S0, c6S1, c6S2, c6S3, c6S4].getD 1 ([] : PyStr)) = c6S1 from rfl]
    rw [show (splitWs c6S1).length = 29 from by decide]
    rw [show (([(0 : ℚ), 0, 0, 0, 0].getD 1 0 : ℚ) : ℝ) = 0 from by norm_num]
    norm_num
  · dsimp only
    simp only [SentCand.mk.injEq]
    refine ⟨by trivial, ?_, by trivial⟩
    rw [rawCos, c6_norm_e2, c6_norm_v]
    rw [show dotL [(0 : ℝ), 0, 1, 0, 0] [(7 : ℝ), 3, 4, 5, 1] = 4 by norm_num [dotL]]
    rw [show ([c6S0, c6S1, c6S2, c6S3, c6S4].getD 2 ([] : PyStr)) = c6S2 from rfl]
    rw [show (splitWs c6S2).length = 28 from by decide]
    rw [show (([(0 : ℚ), 0, 0, 0, 0].getD 2 0 : ℚ) : ℝ) = 0 from by norm_num]
    norm_num
  · dsimp only
    simp only [SentCand.mk.injEq]
    refine ⟨by trivial, ?_, by trivial⟩
    rw [rawCos, c6_norm_e3, c6_norm_v]
    rw [show dotL [(0 : ℝ), 0, 0, 1, 0] [(7 : ℝ), 3, 4, 5, 1] = 5 by norm_num [dotL]]
    rw [show ([c6S0, c6S1, c6S2, c6S3, c6S4].getD 3 ([] : PyStr)) = c6S3 from rfl]
    rw [show (splitWs c6S3).length = 28 from by decide]
    rw [show (([(0 : ℚ), 0, 0, 0, 0].getD 3 0 : ℚ) : ℝ) = 0 from by norm_num]
    norm_num
  · dsimp only
    simp only [SentCand.mk.injEq]
    refine ⟨by trivial, ?_, by trivial⟩
    rw [rawCos, c6_norm_e4, c6_norm_v]
    rw [show dotL [(0 : ℝ), 0, 0, 0, 1] [(7 : ℝ), 3, 4, 5, 1] = 1 by norm_num [dotL]]
    rw [show ([c6S0, c6S1, c6S2, c6S3, c6S4].getD 4 ([] : PyStr)) = c6S4 from rfl]
    rw [show (splitWs c6S4).length = 27 from by decide]
    rw [show (([(0 : ℚ), 0, 0, 0, 0].getD 4 0 : ℚ) : ℝ) = 0 from by norm_num]
    norm_num

lemma c6_cos03 : rawCos [(1 : ℝ), 0, 0, 0, 0] [(0 : ℝ), 0, 0, 1, 0] = 0 := by
  rw [rawCos, c6_norm_e0, c6_norm_e3]
  norm_num [dotL]

lemma c6_cos01 : rawCos [(1 : ℝ), 0, 0, 0, 0] [(0 : ℝ), 1, 0, 0, 0] = 0 := by
  rw [rawCos, c6_norm_e0, c6_norm_e1]
  norm_num [dotL]

lemma c6_cos02 : rawCos [(1 : ℝ), 0, 0, 0, 0] [(0 : ℝ), 0, 1, 0, 0] = 0 := by
  rw [rawCos, c6_norm_e0, c6_norm_e2]
  norm_num [dotL]

lemma c6_cos04 : rawCos [(1 : ℝ), 0, 0, 0, 0] [(0 : ℝ), 0, 0, 0, 1] = 0 := by
  rw [rawCos, c6_norm_e0, c6_norm_e4]
  norm_num [dotL]

lemma c6_cos31 : rawCos [(0 : ℝ), 0, 0, 1, 0] [(0 : ℝ), 1, 0, 0, 0] = 0 := by
  rw [rawCos, c6_norm_e3, c6_norm_e1]
  norm_num [dotL]

lemma c6_cos32 : rawCos [(0 : ℝ), 0, 0, 1, 0] [(0 : ℝ), 0, 1, 0, 0] = 0 := by
  rw [rawCos, c6_norm_e3, c6_norm_e2]
  norm_num [dotL]

lemma c6_cos34 : rawCos [(0 : ℝ), 0, 0, 1, 0] [(0 : ℝ), 0, 0, 0, 1] = 0 := by
  rw [rawCos, c6_norm_e3, c6_norm_e4]
  norm_num [dotL]

lemma c6_cos12 : rawCos [(0 : ℝ), 1, 0, 0, 0] [(0 : ℝ), 0, 1, 0, 0] = 0 := by
  rw [rawCos, c6_norm_e1, c6_norm_e2]
  norm_num [dotL]

lemma c6_cos14 : rawCos [(0 : ℝ), 1, 0, 0, 0] [(0 : ℝ), 0, 0, 0, 1] = 0 := by
  rw [rawCos, c6_norm_e1, c6_norm_e4]
  norm_num [dotL]

lemma c6_sort0 :
    sortDesc (fun c => c.score)
      ([⟨0, 1.26, c6S0⟩, ⟨1, 0.468, c6S1⟩, ⟨2, 0.432, c6S2⟩,
       ⟨3, 0.54, c6S3⟩, ⟨4, 0.108, c6S4⟩] : List SentCand) =
    [⟨0, 1.26, c6S0⟩, ⟨3, 0.54, c6S3⟩, ⟨1, 0.468, c6S1⟩, ⟨2, 0.432, c6S2⟩, ⟨4, 0.108, c6S4⟩] := by
  norm_num [sortDesc, insertDesc]

lemma selectLoopGo_step (embs : List (List ℝ)) (k : ℕ) (best : SentCand)
    (rest : List SentCand) (hk : 2 ≤ k) (hr : rest ≠ []) :
    selectLoopGo embs k (best :: rest) =
      best :: selectLoopGo embs (k - 1) (sortDesc (fun c => c.score)
        (rest.map (fun item =>
          let similarity := rawCos (embs.getD best.idx []) (embs.getD item.idx [])
          ⟨item.idx, item.score * (1 - similarity * 0.3), item.sent⟩))) := by
  obtain ⟨m, rfl⟩ : ∃ m, k = m + 1 := ⟨k - 1, by omega⟩
  rw [selectLoopGo, if_pos ⟨by omega, hr⟩]
  simp

lemma selectLoopGo_one (embs : List (List ℝ)) (best : SentCand)
    (rest : List SentCand) :
    selectLoopGo embs 1 (best :: rest) = [best] := by
  rw [show (1 : ℕ) = 0 + 1 from rfl, selectLoopGo, if_neg (by simp), selectLoopGo]

lemma c6_select :
    selectLoopGo [[(1 : ℝ), 0, 0, 0, 0], [(0 : ℝ), 1, 0, 0, 0], [(0 : ℝ), 0, 1, 0, 0], [(0 : ℝ), 0, 0, 1, 0], [(0 : ℝ), 0, 0, 0, 1]] 4 [⟨0, 1.26, c6S0⟩, ⟨3, 0.54, c6S3⟩, ⟨1, 0.468, c6S1⟩, ⟨2, 0.432, c6S2⟩, ⟨4, 0.108, c6S4⟩] =
    [⟨0, 1.26, c6S0⟩, ⟨3, 0.54, c6S3⟩, ⟨1, 0.468, c6S1⟩, ⟨2, 0.432, c6S2⟩] := by
  rw [selectLoopGo_step [[(1 : ℝ), 0, 0, 0, 0], [(0 : ℝ), 1, 0, 0, 0], [(0 : ℝ), 0, 1, 0, 0], [(0 : ℝ), 0, 0, 1, 0], [(0 : ℝ), 0, 0, 0, 1]] 4 ⟨0, 1.26, c6S0⟩
    [⟨3, 0.54, c6S3⟩, ⟨1, 0.468, c6S1⟩, ⟨2, 0.432, c6S2⟩, ⟨4, 0.108, c6S4⟩] (by norm_num) (by simp)]
  rw [show (4 : ℕ) - 1 = 3 from rfl]
  simp only [List.map_cons, List.map_nil]
  rw [show ([[(1 : ℝ), 0, 0, 0, 0], [(0 : ℝ), 1, 0, 0, 0], [(0 : ℝ), 0, 1, 0, 0], [(0 : ℝ), 0, 0, 1, 0], [(0 : ℝ), 0, 0, 0, 1]] : List (List ℝ)).getD 0 [] = [(1 : ℝ), 0, 0, 0, 0] from rfl]
  rw [show ([[(1 : ℝ), 0, 0, 0, 0], [(0 : ℝ), 1, 0, 0, 0], [(0 : ℝ), 0, 1, 0, 0], [(0 : ℝ), 0, 0, 1, 0], [(0 : ℝ), 0, 0, 0, 1]] : List (List ℝ)).getD 1 [] = [(0 : ℝ), 1, 0, 0, 0] from rfl]
  rw [show ([[(1 : ℝ), 0, 0, 0, 0], [(0 : ℝ), 1, 0, 0, 0], [(0 : ℝ), 0, 1, 0, 0], [(0 : ℝ), 0, 0, 1, 0], [(0 : ℝ), 0, 0, 0, 1]] : List (List ℝ)).getD 2 [] = [(0 : ℝ), 0, 1, 0, 0] from rfl]
  rw [show ([[(1 : ℝ), 0, 0, 0, 0], [(0 : ℝ), 1, 0, 0, 0], [(0 : ℝ), 0, 1, 0, 0], [(0 : ℝ), 0, 0, 1, 0], [(0 : ℝ), 0, 0, 0, 1]] : List (List ℝ)).getD 3 [] = [(0 : ℝ), 0, 0, 1, 0] from rfl]
  rw [show ([[(1 : ℝ), 0, 0, 0, 0], [(0 : ℝ), 1, 0, 0, 0], [(0 : ℝ), 0, 1, 0, 0], [(0 : ℝ), 0, 0, 1, 0], [(0 : ℝ), 0, 0, 0, 1]] : List (List ℝ)).getD 4 [] = [(0 : ℝ), 0, 0, 0, 1] from rfl]
  rw [c6_cos03, c6_cos01, c6_cos02, c6_cos04]
  rw [show (0.54 : ℝ) * (1 - 0 * 0.3) = 0.54 by norm_num,
    show (0.468 : ℝ) * (1 - 0 * 0.3) = 0.468 by norm_num,
    show (0.432 : ℝ) * (1 - 0 * 0.3) = 0.432 by norm_num,
    show (0.108 : ℝ) * (1 - 0 * 0.3) = 0.108 by norm_num]
  rw [show sortDesc (fun c => c.score) ([⟨3, 0.54, c6S3⟩, ⟨1, 0.468, c6S1⟩, ⟨2, 0.432, c6S2⟩, ⟨4, 0.108, c6S4⟩] : List SentCand) = [⟨3, 0.54, c6S3⟩, ⟨1, 0.468, c6S1⟩, ⟨2, 0.432, c6S2⟩, ⟨4, 0.108, c6S4⟩]
    from by norm_num [sortDesc, insertDesc]]
  rw [selectLoopGo_step [[(1 : ℝ), 0, 0, 0, 0], [(0 : ℝ), 1, 0, 0, 0], [(0 : ℝ), 0, 1, 0, 0], [(0 : ℝ), 0, 0, 1, 0], [(0 : ℝ), 0, 0, 0, 1]] 3 ⟨3, 0.54, c6S3⟩
    [⟨1, 0.468, c6S1⟩, ⟨2, 0.432, c6S2⟩, ⟨4, 0.108, c6S4⟩] (by norm_num) (by simp)]
  rw [show (3 : ℕ) - 1 = 2 from rfl]
  simp only [List.map_cons, List.map_nil]
  rw [show ([[(1 : ℝ), 0, 0, 0, 0], [(0 : ℝ), 1, 0, 0, 0], [(0 : ℝ), 0, 1, 0, 0], [(0 : ℝ), 0, 0, 1, 0], [(0 : ℝ), 0, 0, 0, 1]] : List (List ℝ)).getD 3 [] = [(0 : ℝ), 0, 0, 1, 0] from rfl]
  rw [show ([[(1 : ℝ), 0, 0, 0, 0], [(0 : ℝ), 1, 0, 0, 0], [(0 : ℝ), 0, 1, 0, 0], [(0 : ℝ), 0, 0, 1, 0], [(0 : ℝ), 0, 0, 0, 1]] : List (List ℝ)).getD 1 [] = [(0 : ℝ), 1, 0, 0, 0] from rfl]
  rw [show ([[(1 : ℝ), 0, 0, 0, 0], [(0 : ℝ), 1, 0, 0, 0], [(0 : ℝ), 0, 1, 0, 0], [(0 : ℝ), 0, 0, 1, 0], [(0 : ℝ), 0, 0, 0, 1]] : List (List ℝ)).getD 2 [] = [(0 : ℝ), 0, 1, 0, 0] from rfl]
  rw [show ([[(1 : ℝ), 0, 0, 0, 0], [(0 : ℝ), 1, 0, 0, 0], [(0 : ℝ), 0, 1, 0, 0], [(0 : ℝ), 0, 0, 1, 0], [(0 : ℝ), 0, 0, 0, 1]] : List (List ℝ)).getD 4 [] = [(0 : ℝ), 0, 0, 0, 1] from rfl]
  rw [c6_cos31, c6_cos32, c6_cos34]
  rw [show (0.468 : ℝ) * (1 - 0 * 0.3) = 0.468 by norm_num,
    show (0.432 : ℝ) * (1 - 0 * 0.3) = 0.432 by norm_num,
    show (0.108 : ℝ) * (1 - 0 * 0.3) = 0.108 by norm_num]
  rw [show sortDesc (fun c => c.score) ([⟨1, 0.468, c6S1⟩, ⟨2, 0.432, c6S2⟩, ⟨4, 0.108, c6S4⟩] : List SentCand) = [⟨1, 0.468, c6S1⟩, ⟨2, 0.432, c6S2⟩, ⟨4, 0.108, c6S4⟩]
    from by norm_num [sortDesc, insertDesc]]
  rw [selectLoopGo_step [[(1 : ℝ), 0, 0, 0, 0], [(0 : ℝ), 1, 0, 0, 0], [(0 : ℝ), 0, 1, 0, 0], [(0 : ℝ), 0, 0, 1, 0], [(0 : ℝ), 0, 0, 0, 1]] 2 ⟨1, 0.468, c6S1⟩
    [⟨2, 0.432, c6S2⟩, ⟨4, 0.108, c6S4⟩] (by norm_num) (by simp)]
  rw [show (2 : ℕ) - 1 = 1 from rfl]
  simp only [List.map_cons, List.map_nil]
  rw [show ([[(1 : ℝ), 0, 0, 0, 0], [(0 : ℝ), 1, 0, 0, 0], [(0 : ℝ), 0, 1, 0, 0], [(0 : ℝ), 0, 0, 1, 0], [(0 : ℝ), 0, 0, 0, 1]] : List (List ℝ)).getD 1 [] = [(0 : ℝ), 1, 0, 0, 0] from rfl]
  rw [show ([[(1 : ℝ), 0, 0, 0, 0], [(0 : ℝ), 1, 0, 0, 0], [(0 : ℝ), 0, 1, 0, 0], [(0 : ℝ), 0, 0, 1, 0], [(0 : ℝ), 0, 0, 0, 1]] : List (List ℝ)).getD 2 [] = [(0 : ℝ), 0, 1, 0, 0] from rfl]
  rw [show ([[(1 : ℝ), 0, 0, 0, 0], [(0 : ℝ), 1, 0, 0, 0], [(0 : ℝ), 0, 1, 0, 0], [(0 : ℝ), 0, 0, 1, 0], [(0 : ℝ), 0, 0, 0, 1]] : List (List ℝ)).getD 4 [] = [(0 : ℝ), 0, 0, 0, 1] from rfl]
  rw [c6_cos12, c6_cos14]
  rw [show (0.432 : ℝ) * (1 - 0 * 0.3) = 0.432 by norm_num,
    show (0.108 : ℝ) * (1 - 0 * 0.3) = 0.108 by norm_num]
  rw [show sortDesc (fun c => c.score) ([⟨2, 0.432, c6S2⟩, ⟨4, 0.108, c6S4⟩] : List SentCand) = [⟨2, 0.432, c6S2⟩, ⟨4, 0.108, c6S4⟩]
    from by norm_num [sortDesc, insertDesc]]
  rw [selectLoopGo_one]

lemma c6_selStage : selectionStage c6Enc c6Content 4 =
    [⟨0, 1.26, c6S0⟩, ⟨1, 0.468, c6S1⟩, ⟨2, 0.432, c6S2⟩, ⟨3, 0.54, c6S3⟩] := by
  rw [selectionStage, c6_quality, c6_embs, c6_cands, c6_sort0, c6_select]
  norm_num [sortAsc, insertAsc]

/-! ## C6: the 600-character cap keeps the first 3 by position, not by score -/

set_option maxRecDepth 100000 in
/-- **C6** counterexample.  On the five-sentence garden document with the
orthonormal toy encoder, step 6 scores the sentences 1.26, 0.468, 0.432,
0.54, 0.108; the selection loop picks sentences 0, 3, 1, 2 and step 7
re-orders them by position.  The assembled summary exceeds 600 characters
with 4 > 3 sentences selected, so the cap fires - but the code keeps the
first 3 sentences in POSITION order (scores 1.26, 0.468, 0.432), dropping
sentence 3 whose step-6 score 0.54 beats both kept sentences 1 and 2.  The
output therefore differs from the join of the top 3 by step-6 score
(sentences 0, 3, 1) in either score order or position order. -/
theorem C6_counterexample :
    ((selectionStage c6Enc c6Content 4).map (fun c => c.sent) =
        [c6S0, c6S1, c6S2, c6S3] ∧
      (selectionStage c6Enc c6Content 4).map (fun c => c.score) =
        [1.26, 0.468, 0.432, 0.54] ∧
      600 < (joinSp [c6S0, c6S1, c6S2, c6S3]).length ∧
      3 < (selectionStage c6Enc c6Content 4).length) ∧
    generate_document_summary c6Enc c6Content "doc.txt".toList 4 =
      joinSp [c6S0, c6S1, c6S2] ∧
    ((0.432 : ℝ) < 0.54 ∧ (0.468 : ℝ) < 0.54) ∧
    joinSp [c6S0, c6S1, c6S2] ≠ joinSp [c6S0, c6S3, c6S1] ∧
    joinSp [c6S0, c6S1, c6S2] ≠ joinSp [c6S0, c6S1, c6S3] := by
  refine ⟨⟨?_, ?_, by decide, ?_⟩, ?_, ⟨by norm_num, by norm_num⟩,
    by decide, by decide⟩
  · simp only [c6_selStage]
    rfl
  · simp only [c6_selStage]
    rfl
  · simp only [c6_selStage]
    decide
  · rw [generate_document_summary, if_neg (by decide)]
    dsimp only
    rw [c6_quality]
    rw [if_neg (by decide)]
    rw [if_neg (by decide)]
    rw [cappedSelection]
    rw [c6_selStage]
    have hcap : 600 < (joinSp (([⟨0, (1.26 : ℝ), c6S0⟩, ⟨1, 0.468, c6S1⟩,
        ⟨2, 0.432, c6S2⟩, ⟨3, 0.54, c6S3⟩] : List SentCand).map
          (fun c => c.sent))).length ∧
        3 < ([⟨0, (1.26 : ℝ), c6S0⟩, ⟨1, 0.468, c6S1⟩, ⟨2, 0.432, c6S2⟩,
        ⟨3, 0.54, c6S3⟩] : List SentCand).length := by
      refine ⟨?_, by decide⟩
      show 600 < (joinSp [c6S0, c6S1, c6S2, c6S3]).length
      decide
    rw [if_pos hcap]
    rfl

/-- **C6** (amended): whenever the document has more than `max_sentences`
quality sentences (so the selection stage runs), the assembled summary
exceeds 600 characters and more than 3 sentences were selected, the
summarizer keeps the FIRST 3 sentences of the position-reordered selection
(step 7 order), not the top 3 by step-6 candidate score, and rejoins them. -/
theorem C6_amended_cap_keeps_first_three (encode : PyStr → List ℝ)
    (content filename : PyStr) (n : ℕ)
    (hq : n < (quality_sentences content).length)
    (h600 : 600 <
      (joinSp ((selectionStage encode content n).map (fun c => c.sent))).length)
    (h3 : 3 < (selectionStage encode content n).length) :
    generate_document_summary encode content filename n =
      joinSp (((selectionStage encode content n).take 3).map (fun c => c.sent)) := by
  have hqne : quality_sentences content ≠ [] := by
    intro he
    rw [he] at hq
    simp at hq
  have hstrip : pyStrip content ≠ [] :=
    fun hs => hqne (quality_of_stripped_empty content hs)
  have hcontent : content ≠ [] := by
    intro hc
    apply hstrip
    rw [hc]
    rfl
  rw [generate_document_summary]
  rw [if_neg (by
    intro h
    rcases h with h | h
    · exact hcontent h
    · exact hstrip h)]
  rw [if_neg hqne]
  rw [if_neg (by omega)]
  rw [cappedSelection]
  rw [if_pos ⟨h600, h3⟩]

set_option maxRecDepth 100000 in
/-- Witness for `C6_amended_cap_keeps_first_three` at the concrete garden
document: 4 < 5 quality sentences, the 4 selected sentences join to more
than 600 characters, and the summary is the join of the first 3 of the
position-ordered selection. -/
theorem C6_witness :
    4 < (quality_sentences c6Content).length ∧
    600 < (joinSp ((selectionStage c6Enc c6Content 4).map
      (fun c => c.sent))).length ∧
    3 < (selectionStage c6Enc c6Content 4).length ∧
    generate_document_summary c6Enc c6Content "doc.txt".toList 4 =
      joinSp (((selectionStage c6Enc c6Content 4).take 3).map
        (fun c => c.sent)) := by
  have hq : 4 < (quality_sentences c6Content).length := by
    rw [c6_quality]
    decide
  have h600 : 600 < (joinSp ((selectionStage c6Enc c6Content 4).map
      (fun c => c.sent))).length := by
    rw [c6_selStage]
    show 600 < (joinSp [c6S0, c6S1, c6S2, c6S3]).length
    decide
  have h3 : 3 < (selectionStage c6Enc c6Content 4).length := by
    rw [c6_selStage]
    decide
  exact ⟨hq, h600, h3,
    C6_amended_cap_keeps_first_three c6Enc c6Content "doc.txt".toList 4 hq h600 h3⟩

/-! ## Witness scenario for C10 -/

/-- A concrete accessible document with non-empty content and embedding. -/
def c10doc : ChatDoc := ⟨1, "f".toList, "c".toList, [1]⟩

/-- The unique retrieval result in the C10 witness scenario. -/
def c10elem : ChatDoc × ℝ × PyStr :=
  (c10doc,
    (calculate_hybrid_score
      (generate_embedding (fun _ => [1]) (enhancedQuery [] "q".toList))
      c10doc.embedding "q".toList c10doc.content c10doc.filename).total,
    extract_relevant_excerpt "q".toList c10doc.content 300)

/-- Witness for `C10_skips_empty_documents`: in the concrete one-document
scenario the retrieval returns exactly that document, and the theorem applies
to it. -/
theorem C10_witness :
    c10elem ∈ get_relevant_documents (fun _ => [1]) [c10doc] "q".toList [] 1 ∧
    c10elem.1.content ≠ [] ∧ c10elem.1.embedding ≠ [] := by
  have hmem : c10elem ∈ get_relevant_documents (fun _ => [1]) [c10doc]
      "q".toList [] 1 := by
    show c10elem ∈ [c10elem]
    exact List.mem_singleton.mpr rfl
  exact ⟨hmem,
    C10_skips_empty_documents (fun _ => [1]) [c10doc] "q".toList [] 1 c10elem hmem⟩

end
